import Mathlib

/-!
# Verification of the value-cell / statement engine of rust-oracle

Shallow embedding of `src/sql_value.rs` and `src/statement.rs`.
The native client capability (ODPI-C) is external to the repository; its
operations (`dpiData_*`, `dpiVar_*`, `dpiLob_*`, `dpiStmt_fetch`, …) are
modelled from the spec's interface description (§6) as explicit state
transformers.  Machine integers are `Nat`/`Int` with explicit wrapping
where it matters; IEEE floats are represented by their exact rational
values (every finite float is a rational); raw pointers that may be null
are `Option`, and dereferencing a null pointer is the explicit outcome
`RResult.ub` (undefined behavior / crash).
-/

set_option autoImplicit false

namespace RustOracle

/-- The error taxonomy of the library (`Error` enum; §7 of the design). -/
inductive Error where
  | NullValue
  | InvalidTypeConversion (src : String) (dst : String)
  | Overflow (value : String) (target : String)
  | UninitializedBindValue
  | InvalidBindIndex (i : Nat)
  | InvalidBindName (n : String)
  | InvalidColumnIndex (i : Nat)
  | InvalidColumnName (n : String)
  | NoMoreData
  | ParseError (s : String)
  | NotSupported (s : String)
  deriving DecidableEq, Repr

/-- Outcome of running a fallible Rust operation: success, library error,
or undefined behavior (null-pointer dereference / panic). -/
inductive RResult (α : Type) where
  | ok (val : α)
  | err (e : Error)
  | ub
  deriving DecidableEq, Repr

def RResult.bindR {α β : Type} : RResult α → (α → RResult β) → RResult β
  | .ok a, f => f a
  | .err e, _ => .err e
  | .ub, _ => .ub

instance : Monad RResult where
  pure := .ok
  bind := RResult.bindR

/-- Object type descriptor (minimal model of `ObjectType`). -/
structure ObjectType where
  name : String
  isCollection : Bool
  deriving DecidableEq, Repr

/-- `NativeType` — the closed set of native buffer encodings (§3 Native
Encoding); the variants are exactly those dispatched on in
`sql_value.rs`. -/
inductive NativeType where
  | Int64
  | UInt64
  | Float
  | Double
  | Char
  | Number
  | Raw
  | Timestamp
  | IntervalDS
  | IntervalYM
  | CLOB
  | BLOB
  | Boolean
  | Object (objtype : ObjectType)
  deriving DecidableEq, Repr

/-- `OracleType` — the Logical Type catalog entries (§3) exercised by the
code under `src/`.  Numeric precision is `u8`-valued, scale is
`i8`-valued in the source; they are modelled as `Nat` and `Int`. -/
inductive OracleType where
  | Varchar2 (size : Nat)
  | NVarchar2 (size : Nat)
  | Char (size : Nat)
  | NChar (size : Nat)
  | Raw (size : Nat)
  | BinaryFloat
  | BinaryDouble
  | Number (prec : Nat) (scale : Int)
  | Date
  | Timestamp (fsprec : Nat)
  | IntervalDS (lfprec : Nat) (fsprec : Nat)
  | IntervalYM (lfprec : Nat)
  | CLOB
  | BLOB
  | Boolean
  | Int64
  | UInt64
  | Object (objtype : ObjectType)
  deriving DecidableEq, Repr

/-- ODPI-C oracle type number constants (values as in the native header). -/
def DPI_ORACLE_TYPE_VARCHAR : Nat := 2001
def DPI_ORACLE_TYPE_NVARCHAR : Nat := 2002
def DPI_ORACLE_TYPE_CHAR : Nat := 2003
def DPI_ORACLE_TYPE_NCHAR : Nat := 2004
def DPI_ORACLE_TYPE_RAW : Nat := 2006
def DPI_ORACLE_TYPE_NATIVE_FLOAT : Nat := 2007
def DPI_ORACLE_TYPE_NATIVE_DOUBLE : Nat := 2008
def DPI_ORACLE_TYPE_NATIVE_INT : Nat := 2009
def DPI_ORACLE_TYPE_NUMBER : Nat := 2010
def DPI_ORACLE_TYPE_DATE : Nat := 2011
def DPI_ORACLE_TYPE_TIMESTAMP : Nat := 2012
def DPI_ORACLE_TYPE_INTERVAL_DS : Nat := 2015
def DPI_ORACLE_TYPE_INTERVAL_YM : Nat := 2016
def DPI_ORACLE_TYPE_CLOB : Nat := 2017
def DPI_ORACLE_TYPE_BLOB : Nat := 2019
def DPI_ORACLE_TYPE_BOOLEAN : Nat := 2022
def DPI_ORACLE_TYPE_OBJECT : Nat := 2023
def DPI_ORACLE_TYPE_NATIVE_UINT : Nat := 2026

/-- Modelled from the spec: the Type Catalog's pure lookup
`native_encoding_for(logical_type) -> (driver_type_code, Native Encoding,
size, size_unit)` (§4.1).  The source function `OracleType::var_create_param`
lives in a file of this repository that is not under `src/`; it is modelled
here, total and deterministic over the variants above, faithful to the
catalog description.  The result is
`(oracle type number, native type, size, size_is_bytes)`. -/
def OracleType.var_create_param : OracleType → Nat × NativeType × Nat × Bool
  | .Varchar2 size => (DPI_ORACLE_TYPE_VARCHAR, .Char, size, false)
  | .NVarchar2 size => (DPI_ORACLE_TYPE_NVARCHAR, .Char, size, false)
  | .Char size => (DPI_ORACLE_TYPE_CHAR, .Char, size, false)
  | .NChar size => (DPI_ORACLE_TYPE_NCHAR, .Char, size, false)
  | .Raw size => (DPI_ORACLE_TYPE_RAW, .Raw, size, true)
  | .BinaryFloat => (DPI_ORACLE_TYPE_NATIVE_FLOAT, .Float, 0, false)
  | .BinaryDouble => (DPI_ORACLE_TYPE_NATIVE_DOUBLE, .Double, 0, false)
  | .Number _ _ => (DPI_ORACLE_TYPE_NUMBER, .Number, 0, false)
  | .Date => (DPI_ORACLE_TYPE_DATE, .Timestamp, 0, false)
  | .Timestamp _ => (DPI_ORACLE_TYPE_TIMESTAMP, .Timestamp, 0, false)
  | .IntervalDS _ _ => (DPI_ORACLE_TYPE_INTERVAL_DS, .IntervalDS, 0, false)
  | .IntervalYM _ => (DPI_ORACLE_TYPE_INTERVAL_YM, .IntervalYM, 0, false)
  | .CLOB => (DPI_ORACLE_TYPE_CLOB, .CLOB, 0, false)
  | .BLOB => (DPI_ORACLE_TYPE_BLOB, .BLOB, 0, false)
  | .Boolean => (DPI_ORACLE_TYPE_BOOLEAN, .Boolean, 0, false)
  | .Int64 => (DPI_ORACLE_TYPE_NATIVE_INT, .Int64, 0, false)
  | .UInt64 => (DPI_ORACLE_TYPE_NATIVE_UINT, .UInt64, 0, false)
  | .Object t => (DPI_ORACLE_TYPE_OBJECT, .Object t, 0, false)

/-- Modelled from the spec: the `Display` rendering of a Logical Type
(defined outside `src/`; the format matches the examples shown in the
`statement.rs` doc comments, e.g. `VARCHAR2(10)`, `NUMBER(7,2)`). -/
def OracleType.toStr : OracleType → String
  | .Varchar2 size => "VARCHAR2(" ++ toString size ++ ")"
  | .NVarchar2 size => "NVARCHAR2(" ++ toString size ++ ")"
  | .Char size => "CHAR(" ++ toString size ++ ")"
  | .NChar size => "NCHAR(" ++ toString size ++ ")"
  | .Raw size => "RAW(" ++ toString size ++ ")"
  | .BinaryFloat => "BINARY_FLOAT"
  | .BinaryDouble => "BINARY_DOUBLE"
  | .Number prec scale =>
      if scale = 0 then "NUMBER(" ++ toString prec ++ ")"
      else "NUMBER(" ++ toString prec ++ "," ++ toString scale ++ ")"
  | .Date => "DATE"
  | .Timestamp p => "TIMESTAMP(" ++ toString p ++ ")"
  | .IntervalDS l f => "INTERVAL DAY(" ++ toString l ++ ") TO SECOND(" ++ toString f ++ ")"
  | .IntervalYM l => "INTERVAL YEAR(" ++ toString l ++ ") TO MONTH"
  | .CLOB => "CLOB"
  | .BLOB => "BLOB"
  | .Boolean => "BOOLEAN"
  | .Int64 => "INT64"
  | .UInt64 => "UINT64"
  | .Object t => t.name

/-- Timestamp host value (fields as carried by `dpiTimestamp`). -/
structure Timestamp where
  year : Int
  month : Nat
  day : Nat
  hour : Nat
  minute : Nat
  second : Nat
  nanosecond : Nat
  tzHourOffset : Int
  tzMinuteOffset : Int
  deriving DecidableEq, Repr

/-- Day-to-second interval host value. -/
structure IntervalDS where
  days : Int
  hours : Int
  minutes : Int
  seconds : Int
  nanoseconds : Int
  deriving DecidableEq, Repr

/-- Year-to-month interval host value. -/
structure IntervalYM where
  years : Int
  months : Int
  deriving DecidableEq, Repr

/-- Modelled from the spec: default string rendering of a timestamp
(date/interval formatting lives outside `src/`; only the fact that a
string is produced matters to the claims). -/
def Timestamp.toStr (t : Timestamp) : String :=
  toString t.year ++ "-" ++ toString t.month ++ "-" ++ toString t.day

/-- Modelled from the spec: default string rendering of a
day-to-second interval. -/
def IntervalDS.toStr (it : IntervalDS) : String :=
  toString it.days ++ " " ++ toString it.hours ++ ":" ++ toString it.minutes

/-- Modelled from the spec: default string rendering of a
year-to-month interval. -/
def IntervalYM.toStr (it : IntervalYM) : String :=
  toString it.years ++ "-" ++ toString it.months

/-- The payload stored in one `dpiData` slot (the tagged view of the C
union).  Character/numeric-text payloads are byte buffers; float and
double payloads are the exact rational values of the stored IEEE
numbers; LOB payloads model the content behind the LOB locator
(characters for CLOB, bytes for BLOB); object payloads model the
`dpiObject` handle. -/
inductive DpiValue where
  | vInt64 (v : Int)
  | vUInt64 (v : Nat)
  | vFloat (v : ℚ)
  | vDouble (v : ℚ)
  | vBytes (b : List Nat)
  | vTimestamp (t : Timestamp)
  | vIntervalDS (it : IntervalDS)
  | vIntervalYM (it : IntervalYM)
  | vClob (content : List Char)
  | vBlob (content : List Nat)
  | vBool (b : Bool)
  | vObject (h : Nat)
  deriving DecidableEq, Repr

/-- One `dpiData` element: per-row null flag plus payload. -/
structure DpiData where
  isNull : Bool
  value : DpiValue
  deriving DecidableEq, Repr

/-- The `SqlValue` struct of `sql_value.rs` (the Value Cell).  The raw
pointers `handle : *mut dpiVar` and `data : *mut dpiData` are modelled as
`Option`s: `none` is the null pointer.  `data` points at an array of
`array_size` slots; `keep_bytes`/`keep_dpiobj` auxiliary storage is
subsumed by the slot payloads (the slot records the bytes/object that
the retained storage backs). -/
structure SqlValue where
  handle : Option Nat
  data : Option (List DpiData)
  native_type : NativeType
  oratype : Option OracleType
  array_size : Nat
  buffer_row_index : Nat
  deriving DecidableEq, Repr

/-- `SqlValue::new` — the plain constructor for column and bind values:
null handle, null data pointer, `NativeType::Int64`, no Oracle type. -/
def SqlValue.new : SqlValue :=
  { handle := none
    data := none
    native_type := .Int64
    oratype := none
    array_size := 0
    buffer_row_index := 0 }

/-- Dereference `self.data.offset(self.buffer_row_index)` and read the
slot.  A null `data` pointer or an out-of-bounds row index is undefined
behavior. -/
def SqlValue.dataSlot (v : SqlValue) : RResult DpiData :=
  match v.data with
  | none => .ub
  | some arr =>
    match arr[v.buffer_row_index]? with
    | some d => .ok d
    | none => .ub

/-- Write through `self.data.offset(self.buffer_row_index)`. -/
def SqlValue.setDataSlot (v : SqlValue) (d : DpiData) : RResult SqlValue :=
  match v.data with
  | none => .ub
  | some arr =>
    if v.buffer_row_index < arr.length then
      .ok { v with data := some (arr.set v.buffer_row_index d) }
    else .ub

/-- Allocation state of the Native Client Capability: a supply of fresh
buffer handles and the multiset of released ones.  Modelled from the
spec's `create_buffer`/`release_buffer` interface (§6). -/
structure AllocState where
  next : Nat
  released : List Nat
  deriving DecidableEq, Repr

/-- Modelled from the spec: `release_buffer` (`dpiVar_release`). -/
def dpiVar_release (st : AllocState) (h : Nat) : AllocState :=
  { st with released := st.released ++ [h] }

/-- Modelled from the spec: a freshly created buffer holds `array_size`
null slots (`create_buffer` of §6; the driver initializes every slot's
null flag).  The payload default is determined by the native type. -/
def DpiValue.defaultFor : NativeType → DpiValue
  | .Int64 => .vInt64 0
  | .UInt64 => .vUInt64 0
  | .Float => .vFloat 0
  | .Double => .vDouble 0
  | .Char => .vBytes []
  | .Number => .vBytes []
  | .Raw => .vBytes []
  | .Timestamp => .vTimestamp ⟨0, 0, 0, 0, 0, 0, 0, 0, 0⟩
  | .IntervalDS => .vIntervalDS ⟨0, 0, 0, 0, 0⟩
  | .IntervalYM => .vIntervalYM ⟨0, 0⟩
  | .CLOB => .vClob []
  | .BLOB => .vBlob []
  | .Boolean => .vBool false
  | .Object _ => .vObject 0

/-- Modelled from the spec: `create_buffer` (`dpiConn_newVar`): returns a
fresh buffer handle and the data array of `array_size` null slots. -/
def dpiConn_newVar (st : AllocState) (nt : NativeType) (array_size : Nat) :
    Nat × List DpiData × AllocState :=
  (st.next, List.replicate array_size ⟨true, DpiValue.defaultFor nt⟩,
   { st with next := st.next + 1 })

/-- `SqlValue::handle_is_reusable` — the allocation/reuse decision of
`init_handle` (`sql_value.rs`).  In the source `var_create_param` can
fail only for catalog entries outside the modelled set, so the modelled
decision is a plain `Bool`. -/
def SqlValue.handle_is_reusable (v : SqlValue) (oratype : OracleType)
    (array_size : Nat) : Bool :=
  match v.handle with
  | none => false
  | some _ =>
    if v.array_size ≠ array_size then false
    else
      match v.oratype with
      | none => false
      | some current_oratype =>
        let (current_oratype_num, current_native_type, current_size, _) :=
          current_oratype.var_create_param
        let (new_oratype_num, new_native_type, new_size, _) :=
          oratype.var_create_param
        if current_oratype_num ≠ new_oratype_num then false
        else if current_oratype_num = DPI_ORACLE_TYPE_VARCHAR ∨
                current_oratype_num = DPI_ORACLE_TYPE_NVARCHAR ∨
                current_oratype_num = DPI_ORACLE_TYPE_CHAR ∨
                current_oratype_num = DPI_ORACLE_TYPE_NCHAR ∨
                current_oratype_num = DPI_ORACLE_TYPE_RAW then
          decide (current_size ≥ new_size)
        else if current_oratype_num = DPI_ORACLE_TYPE_OBJECT then
          decide (current_native_type = new_native_type)
        else true

/-- `SqlValue::init_handle` — reconcile the cell's buffer with a
requested Logical Type and array size: reuse the buffer when
`handle_is_reusable`, otherwise release the old buffer (if any) and
allocate a fresh one, updating native type, Oracle type and array size.
Returns whether a (re)allocation happened, with the updated cell and
allocator state. -/
def SqlValue.init_handle (v : SqlValue) (oratype : OracleType)
    (array_size : Nat) (st : AllocState) : Bool × SqlValue × AllocState :=
  if v.handle_is_reusable oratype array_size then
    (false, v, st)
  else
    let st1 := match v.handle with
               | some h => dpiVar_release st h
               | none => st
    let (_, native_type, _, _) := oratype.var_create_param
    let (h, dta, st2) := dpiConn_newVar st1 native_type array_size
    (true,
     { v with handle := some h
              data := some dta
              native_type := native_type
              oratype := some oratype
              array_size := array_size },
     st2)

/-- i64 minimum. -/
def I64_MIN : Int := -(2 ^ 63)

/-- i64 maximum. -/
def I64_MAX : Int := 2 ^ 63 - 1

/-- u64 maximum. -/
def U64_MAX : Nat := 2 ^ 64 - 1

/-- Two's-complement wrap of an integer into the i64 range (Rust `as i64`
on an integer source). -/
def wrapToI64 (x : Int) : Int := (x + 2 ^ 63) % 2 ^ 64 - 2 ^ 63

/-- Two's-complement wrap of an integer into the u64 range (Rust `as u64`
on an integer source). -/
def wrapToU64 (x : Int) : Nat := (x % 2 ^ 64).toNat

/-- Truncation of a rational toward zero (the defined part of Rust's
float-to-integer `as` cast). -/
def ratTrunc (q : ℚ) : Int := Int.tdiv q.num (Int.ofNat q.den)

/-- Rust float-to-integer `as` cast: truncate toward zero, saturating at
the destination's bounds (the behavior of the cast as compiled today;
claims never rely on values produced outside the checked range except to
exhibit the absence of an `Overflow` error). -/
def ratTruncSat (q : ℚ) (lo hi : Int) : Int := max lo (min hi (ratTrunc q))

/-- Rendering of a float value for `Error::Overflow` messages.  Exact
decimal formatting of floats is not modelled; the rendering is injective
on the modelled values, which is all the claims use. -/
def ratToStr (q : ℚ) : String :=
  if q.den = 1 then toString q.num
  else toString q.num ++ "/" ++ toString q.den

/-- `str::parse` into an integer type with the given bounds.  Rust's
`parse` fails (with a `ParseIntError`, wrapped as a parse failure) both
on malformed text and on out-of-range values. -/
def parseIntInRange (s : String) (lo hi : Int) : RResult Int :=
  match s.toInt? with
  | some x => if lo ≤ x ∧ x ≤ hi then .ok x else .err (.ParseError s)
  | none => .err (.ParseError s)

/-- Modelled from the spec: `str::parse` into a float type.  Decimal
float literal parsing is abstracted: integer-valued text parses exactly,
other text fails; only the error propagation is relevant to the
claims. -/
def parseFloatStr (s : String) : RResult ℚ :=
  match s.toInt? with
  | some x => .ok (x : ℚ)
  | none => .err (.ParseError s)

/-- Modelled from the spec: `str::parse` into a `Timestamp`
(`impl FromStr for Timestamp` lives outside `src/`); only its error
propagation is relevant to the claims, so parsing is conservatively a
failure. -/
def parseTimestampStr (s : String) : RResult Timestamp := .err (.ParseError s)

/-- Modelled from the spec: `str::parse` into an `IntervalDS`. -/
def parseIntervalDSStr (s : String) : RResult IntervalDS := .err (.ParseError s)

/-- Modelled from the spec: `str::parse` into an `IntervalYM`. -/
def parseIntervalYMStr (s : String) : RResult IntervalYM := .err (.ParseError s)

/-- Hexadecimal digit for a nibble (lowercase). -/
def hexDigit (n : Nat) : Char :=
  if n < 10 then Char.ofNat (48 + n) else Char.ofNat (87 + n)

/-- Modelled from the spec: `util::set_hex_string` — render raw bytes as
hexadecimal text (§4.2 string conversion rule). -/
def set_hex_string (bs : List Nat) : String :=
  String.mk ((bs.map (fun b => [hexDigit (b / 16 % 16), hexDigit (b % 16)])).flatten)

/-- Numeric value of a hexadecimal digit character. -/
def hexVal (c : Char) : Option Nat :=
  if 48 ≤ c.toNat ∧ c.toNat ≤ 57 then some (c.toNat - 48)
  else if 97 ≤ c.toNat ∧ c.toNat ≤ 102 then some (c.toNat - 87)
  else if 65 ≤ c.toNat ∧ c.toNat ≤ 70 then some (c.toNat - 55)
  else none

/-- Modelled from the spec: `util::parse_str_into_raw` — parse
hexadecimal text into raw bytes (inverse of the hex rendering). -/
def parse_str_into_raw (s : String) : RResult (List Nat) :=
  let rec go : List Char → RResult (List Nat)
    | [] => .ok []
    | [_] => .err (.ParseError s)
    | c1 :: c2 :: rest =>
      match hexVal c1, hexVal c2 with
      | some h, some l => do
          let tl ← go rest
          .ok ((h * 16 + l) :: tl)
      | _, _ => .err (.ParseError s)
  go s.data

/-- Modelled from the spec: `util::check_number_format` — validate
numeric text before storing it into a numeric-text cell.  Digit strings
with an optional leading sign are accepted. -/
def check_number_format (s : String) : RResult Unit :=
  let body := if s.startsWith "-" ∨ s.startsWith "+" then s.drop 1 else s
  if body.length > 0 ∧ body.data.all Char.isDigit then .ok ()
  else .err (.ParseError s)

/-- Modelled from the spec: `String::from_utf8_lossy` over a byte
buffer.  Valid UTF-8 decodes exactly; invalid buffers decode to a
replacement rendering (the lossy branch is never exercised by the
claims). -/
def bytesToStrLossy (b : List Nat) : String :=
  match String.fromUTF8? (ByteArray.mk (b.map (fun n => UInt8.ofNat n)).toArray) with
  | some s => s
  | none => "�"

/-- Minimal model of `Object`: the retained object handle plus its
type. -/
structure Object where
  handle : Nat
  objtype : ObjectType
  deriving DecidableEq, Repr

/-- Minimal model of `Collection`. -/
structure Collection where
  handle : Nat
  objtype : ObjectType
  deriving DecidableEq, Repr

/-- Modelled from the spec: structural string form of an object value. -/
def Object.toStr (o : Object) : String := o.objtype.name ++ "(" ++ toString o.handle ++ ")"

/-- Modelled from the spec: structural string form of a collection value. -/
def Collection.toStr (o : Collection) : String := o.objtype.name ++ "(" ++ toString o.handle ++ ")"

/-- `SqlValue::invalid_conversion_to_rust_type`. -/
def SqlValue.invalid_conversion_to_rust_type {α : Type} (v : SqlValue)
    (to_type : String) : RResult α :=
  match v.oratype with
  | some oratype => .err (.InvalidTypeConversion oratype.toStr to_type)
  | none => .err .UninitializedBindValue

/-- `SqlValue::invalid_conversion_from_rust_type`. -/
def SqlValue.invalid_conversion_from_rust_type {α : Type} (v : SqlValue)
    (from_type : String) : RResult α :=
  match v.oratype with
  | some oratype => .err (.InvalidTypeConversion from_type oratype.toStr)
  | none => .err .UninitializedBindValue

/-- `SqlValue::is_null` — reads the per-row null flag through the data
pointer (undefined behavior when the pointer is null). -/
def SqlValue.is_null (v : SqlValue) : RResult Bool := do
  let d ← v.dataSlot
  pure d.isNull

/-- `SqlValue::set_null` — sets the per-row null flag; the payload is not
touched. -/
def SqlValue.set_null (v : SqlValue) : RResult SqlValue := do
  let d ← v.dataSlot
  v.setDataSlot { d with isNull := true }

/-- `SqlValue::check_not_null`. -/
def SqlValue.check_not_null (v : SqlValue) : RResult Unit := do
  let b ← v.is_null
  if b then .err .NullValue else .ok ()

/-- `SqlValue::oracle_type`. -/
def SqlValue.oracle_type (v : SqlValue) : RResult OracleType :=
  match v.oratype with
  | some oratype => .ok oratype
  | none => .err .UninitializedBindValue

/-- `SqlValue::get_i64_unchecked` (`dpiData_getInt64`; reading a slot
whose union member does not match is modelled as undefined). -/
def SqlValue.get_i64_unchecked (v : SqlValue) : RResult Int := do
  v.check_not_null
  let d ← v.dataSlot
  match d.value with
  | .vInt64 x => .ok x
  | _ => .ub

/-- `SqlValue::get_u64_unchecked`. -/
def SqlValue.get_u64_unchecked (v : SqlValue) : RResult Nat := do
  v.check_not_null
  let d ← v.dataSlot
  match d.value with
  | .vUInt64 x => .ok x
  | _ => .ub

/-- `SqlValue::get_f32_unchecked`. -/
def SqlValue.get_f32_unchecked (v : SqlValue) : RResult ℚ := do
  v.check_not_null
  let d ← v.dataSlot
  match d.value with
  | .vFloat x => .ok x
  | _ => .ub

/-- `SqlValue::get_f64_unchecked`. -/
def SqlValue.get_f64_unchecked (v : SqlValue) : RResult ℚ := do
  v.check_not_null
  let d ← v.dataSlot
  match d.value with
  | .vDouble x => .ok x
  | _ => .ub

/-- `SqlValue::get_string_unchecked` (`dpiData_getBytes` +
`String::from_utf8_lossy`). -/
def SqlValue.get_string_unchecked (v : SqlValue) : RResult String := do
  v.check_not_null
  let d ← v.dataSlot
  match d.value with
  | .vBytes b => .ok (bytesToStrLossy b)
  | _ => .ub

/-- `SqlValue::get_raw_unchecked`. -/
def SqlValue.get_raw_unchecked (v : SqlValue) : RResult (List Nat) := do
  v.check_not_null
  let d ← v.dataSlot
  match d.value with
  | .vBytes b => .ok b
  | _ => .ub

/-- `SqlValue::get_raw_as_hex_string_unchecked`. -/
def SqlValue.get_raw_as_hex_string_unchecked (v : SqlValue) : RResult String := do
  v.check_not_null
  let d ← v.dataSlot
  match d.value with
  | .vBytes b => .ok (set_hex_string b)
  | _ => .ub

/-- `SqlValue::get_timestamp_unchecked` (the source consults
`self.oracle_type()?` to build the host value). -/
def SqlValue.get_timestamp_unchecked (v : SqlValue) : RResult Timestamp := do
  v.check_not_null
  let d ← v.dataSlot
  let _ ← v.oracle_type
  match d.value with
  | .vTimestamp t => .ok t
  | _ => .ub

/-- `SqlValue::get_interval_ds_unchecked`. -/
def SqlValue.get_interval_ds_unchecked (v : SqlValue) : RResult IntervalDS := do
  v.check_not_null
  let d ← v.dataSlot
  let _ ← v.oracle_type
  match d.value with
  | .vIntervalDS it => .ok it
  | _ => .ub

/-- `SqlValue::get_interval_ym_unchecked`. -/
def SqlValue.get_interval_ym_unchecked (v : SqlValue) : RResult IntervalYM := do
  v.check_not_null
  let d ← v.dataSlot
  let _ ← v.oracle_type
  match d.value with
  | .vIntervalYM it => .ok it
  | _ => .ub

/-- `SqlValue::get_collection_unchecked`. -/
def SqlValue.get_collection_unchecked (v : SqlValue) (objtype : ObjectType) :
    RResult Collection := do
  v.check_not_null
  let d ← v.dataSlot
  match d.value with
  | .vObject h => .ok ⟨h, objtype⟩
  | _ => .ub

/-- `SqlValue::get_object_unchecked`. -/
def SqlValue.get_object_unchecked (v : SqlValue) (objtype : ObjectType) :
    RResult Object := do
  v.check_not_null
  let d ← v.dataSlot
  match d.value with
  | .vObject h => .ok ⟨h, objtype⟩
  | _ => .ub

/-- `SqlValue::get_bool_unchecked`. -/
def SqlValue.get_bool_unchecked (v : SqlValue) : RResult Bool := do
  v.check_not_null
  let d ← v.dataSlot
  match d.value with
  | .vBool b => .ok b
  | _ => .ub

/-- The bounded chunk size of the CLOB read loop
(`const READ_CHAR_SIZE: u64 = 8192`, in character units). -/
def READ_CHAR_SIZE : Nat := 8192

/-- The bounded chunk size of the BLOB read loop
(`const READ_SIZE: u64 = 8192`, in bytes). -/
def READ_SIZE : Nat := 8192

/-- The CLOB read loop of `get_clob_as_string_unchecked`: starting from
1-based character offset `offset`, repeatedly read `READ_CHAR_SIZE`-unit
windows (`dpiLob_readBytes`, modelled from the spec's `read_chunk`
operation, §6) and append them, until the offset exceeds the total
size. -/
def lobReadLoop (content : List Char) (offset : Nat) : List Char :=
  if offset ≤ content.length then
    (content.drop (offset - 1)).take READ_CHAR_SIZE ++
      lobReadLoop content (offset + READ_CHAR_SIZE)
  else []
termination_by content.length + 1 - offset
decreasing_by simp [READ_CHAR_SIZE]; omega

/-- The BLOB read loop of `get_blob_as_hex_string_unchecked`: as
`lobReadLoop` but over bytes, hex-encoding each chunk. -/
def blobReadLoop (content : List Nat) (offset : Nat) : String :=
  if offset ≤ content.length then
    set_hex_string ((content.drop (offset - 1)).take READ_SIZE) ++
      blobReadLoop content (offset + READ_SIZE)
  else ""
termination_by content.length + 1 - offset
decreasing_by simp [READ_SIZE]; omega

/-- `SqlValue::get_clob_as_string_unchecked` — chunked CLOB read: query
the total size once, then read chunk-sized windows advancing a 1-based
offset (`dpiLob_getSize` / `dpiLob_readBytes` modelled from the spec's
large-object operations, §6). -/
def SqlValue.get_clob_as_string_unchecked (v : SqlValue) : RResult String := do
  v.check_not_null
  let d ← v.dataSlot
  match d.value with
  | .vClob content => .ok (String.mk (lobReadLoop content 1))
  | _ => .ub

/-- `SqlValue::get_blob_as_hex_string_unchecked` — chunked BLOB read with
hex encoding. -/
def SqlValue.get_blob_as_hex_string_unchecked (v : SqlValue) : RResult String := do
  v.check_not_null
  let d ← v.dataSlot
  match d.value with
  | .vBlob content => .ok (blobReadLoop content 1)
  | _ => .ub

/-- `SqlValue::get_string` — internal text fetch used by the numeric and
text getters. -/
def SqlValue.get_string (v : SqlValue) : RResult String :=
  match v.native_type with
  | .Char | .Number => v.get_string_unchecked
  | .CLOB => v.get_clob_as_string_unchecked
  | _ => v.invalid_conversion_to_rust_type "String"

/-- Description of a narrowing destination integer type as used by the
`define_fn_as_int!` macro: its name, its exact bounds, and the values of
`min_value()/max_value()` cast into `f32` and `f64` (the casts are Rust
compile-time constants; bounds not exactly representable round to the
nearest float, e.g. `i32::max_value() as f32 = 2^31`). -/
structure DestInt where
  name : String
  lo : Int
  hi : Int
  loF32 : ℚ
  hiF32 : ℚ
  loF64 : ℚ
  hiF64 : ℚ
  deriving DecidableEq, Repr

/-- `i8` destination. -/
def destI8 : DestInt := ⟨"i8", -128, 127, -128, 127, -128, 127⟩

/-- `i16` destination. -/
def destI16 : DestInt := ⟨"i16", -32768, 32767, -32768, 32767, -32768, 32767⟩

/-- `i32` destination (`i32::max_value() as f32` rounds to `2^31`). -/
def destI32 : DestInt :=
  ⟨"i32", -(2 ^ 31), 2 ^ 31 - 1, -(2 ^ 31 : ℚ), (2 ^ 31 : ℚ), -(2 ^ 31 : ℚ), ((2 ^ 31 - 1 : Int) : ℚ)⟩

/-- `i64` destination (`i64::max_value()` rounds to `2^63` in both float
types). -/
def destI64 : DestInt :=
  ⟨"i64", -(2 ^ 63), 2 ^ 63 - 1, -(2 ^ 63 : ℚ), (2 ^ 63 : ℚ), -(2 ^ 63 : ℚ), (2 ^ 63 : ℚ)⟩

/-- `u8` destination. -/
def destU8 : DestInt := ⟨"u8", 0, 255, 0, 255, 0, 255⟩

/-- `u16` destination. -/
def destU16 : DestInt := ⟨"u16", 0, 65535, 0, 65535, 0, 65535⟩

/-- `u32` destination (`u32::max_value() as f32` rounds to `2^32`). -/
def destU32 : DestInt :=
  ⟨"u32", 0, 2 ^ 32 - 1, 0, (2 ^ 32 : ℚ), 0, ((2 ^ 32 - 1 : Int) : ℚ)⟩

/-- `u64` destination (`u64::max_value()` rounds to `2^64` in both float
types). -/
def destU64 : DestInt :=
  ⟨"u64", 0, 2 ^ 64 - 1, 0, (2 ^ 64 : ℚ), 0, (2 ^ 64 : ℚ)⟩

/-- Modelled from the spec: `try_into()` for integer narrowing together
with the library's error conversion — a source integer outside the
destination's exact `[min, max]` range yields
`Overflow(value, target_type)` (§4.2, §7). -/
def int_try_into (x : Int) (d : DestInt) : RResult Int :=
  if d.lo ≤ x ∧ x ≤ d.hi then .ok x
  else .err (.Overflow (toString x) d.name)

/-- The `flt_to_int!` macro: bounds check against the destination bounds
cast into the source float type, then the `as` cast.  `srcLo`/`srcHi`
are `$dest_type::min_value() as $src_type` and
`$dest_type::max_value() as $src_type`. -/
def flt_to_int (src_val : ℚ) (srcLo srcHi : ℚ) (d : DestInt) : RResult Int :=
  if srcLo ≤ src_val ∧ src_val ≤ srcHi then .ok (ratTruncSat src_val d.lo d.hi)
  else .err (.Overflow (ratToStr src_val) d.name)

/-- The body generated by `define_fn_as_int!` for a destination integer
type `d` (`as_i8` … `as_u32` in the source; `as_i64`/`as_u64` are
hand-written below following the same shape). -/
def SqlValue.as_int_generic (v : SqlValue) (d : DestInt) : RResult Int :=
  match v.native_type with
  | .Int64 => do
      let x ← v.get_i64_unchecked
      int_try_into x d
  | .UInt64 => do
      let x ← v.get_u64_unchecked
      int_try_into (Int.ofNat x) d
  | .Float => do
      let x ← v.get_f32_unchecked
      flt_to_int x d.loF32 d.hiF32 d
  | .Double => do
      let x ← v.get_f64_unchecked
      flt_to_int x d.loF64 d.hiF64 d
  | .Char | .CLOB | .Number => do
      let s ← v.get_string
      parseIntInRange s d.lo d.hi
  | _ => v.invalid_conversion_to_rust_type d.name

/-- `SqlValue::as_i8`. -/
def SqlValue.as_i8 (v : SqlValue) : RResult Int := v.as_int_generic destI8

/-- `SqlValue::as_i16`. -/
def SqlValue.as_i16 (v : SqlValue) : RResult Int := v.as_int_generic destI16

/-- `SqlValue::as_i32`. -/
def SqlValue.as_i32 (v : SqlValue) : RResult Int := v.as_int_generic destI32

/-- `SqlValue::as_i64` (hand-written in the source: the `Int64` arm
returns the value directly). -/
def SqlValue.as_i64 (v : SqlValue) : RResult Int :=
  match v.native_type with
  | .Int64 => v.get_i64_unchecked
  | .UInt64 => do
      let x ← v.get_u64_unchecked
      int_try_into (Int.ofNat x) destI64
  | .Float => do
      let x ← v.get_f32_unchecked
      flt_to_int x destI64.loF32 destI64.hiF32 destI64
  | .Double => do
      let x ← v.get_f64_unchecked
      flt_to_int x destI64.loF64 destI64.hiF64 destI64
  | .Char | .CLOB | .Number => do
      let s ← v.get_string
      parseIntInRange s destI64.lo destI64.hi
  | _ => v.invalid_conversion_to_rust_type "i64"

/-- `SqlValue::as_u8`. -/
def SqlValue.as_u8 (v : SqlValue) : RResult Int := v.as_int_generic destU8

/-- `SqlValue::as_u16`. -/
def SqlValue.as_u16 (v : SqlValue) : RResult Int := v.as_int_generic destU16

/-- `SqlValue::as_u32`. -/
def SqlValue.as_u32 (v : SqlValue) : RResult Int := v.as_int_generic destU32

/-- `SqlValue::as_u64` (hand-written in the source: the `UInt64` arm
returns the value directly). -/
def SqlValue.as_u64 (v : SqlValue) : RResult Int :=
  match v.native_type with
  | .Int64 => do
      let x ← v.get_i64_unchecked
      int_try_into x destU64
  | .UInt64 => do
      let x ← v.get_u64_unchecked
      .ok (Int.ofNat x)
  | .Float => do
      let x ← v.get_f32_unchecked
      flt_to_int x destU64.loF32 destU64.hiF32 destU64
  | .Double => do
      let x ← v.get_f64_unchecked
      flt_to_int x destU64.loF64 destU64.hiF64 destU64
  | .Char | .CLOB | .Number => do
      let s ← v.get_string
      parseIntInRange s 0 (Int.ofNat U64_MAX)
  | _ => v.invalid_conversion_to_rust_type "u64"

/-- `SqlValue::as_f32` (integer-to-float and double-to-float casts are
kept exact in the rational model; no claim depends on their rounding). -/
def SqlValue.as_f32 (v : SqlValue) : RResult ℚ :=
  match v.native_type with
  | .Int64 => do
      let x ← v.get_i64_unchecked
      .ok (x : ℚ)
  | .UInt64 => do
      let x ← v.get_u64_unchecked
      .ok (x : ℚ)
  | .Float => v.get_f32_unchecked
  | .Double => do
      let x ← v.get_f64_unchecked
      .ok x
  | .Char | .CLOB | .Number => do
      let s ← v.get_string
      parseFloatStr s
  | _ => v.invalid_conversion_to_rust_type "f32"

/-- `SqlValue::as_f64`. -/
def SqlValue.as_f64 (v : SqlValue) : RResult ℚ :=
  match v.native_type with
  | .Int64 => do
      let x ← v.get_i64_unchecked
      .ok (x : ℚ)
  | .UInt64 => do
      let x ← v.get_u64_unchecked
      .ok (x : ℚ)
  | .Float => do
      let x ← v.get_f32_unchecked
      .ok x
  | .Double => v.get_f64_unchecked
  | .Char | .CLOB | .Number => do
      let s ← v.get_string
      parseFloatStr s
  | _ => v.invalid_conversion_to_rust_type "f64"

/-- `SqlValue::as_string`. -/
def SqlValue.as_string (v : SqlValue) : RResult String :=
  match v.native_type with
  | .Int64 => do
      let x ← v.get_i64_unchecked
      .ok (toString x)
  | .UInt64 => do
      let x ← v.get_u64_unchecked
      .ok (toString x)
  | .Float => do
      let x ← v.get_f32_unchecked
      .ok (ratToStr x)
  | .Double => do
      let x ← v.get_f64_unchecked
      .ok (ratToStr x)
  | .Char | .Number => v.get_string_unchecked
  | .Raw => v.get_raw_as_hex_string_unchecked
  | .Timestamp => do
      let t ← v.get_timestamp_unchecked
      .ok t.toStr
  | .IntervalDS => do
      let it ← v.get_interval_ds_unchecked
      .ok it.toStr
  | .IntervalYM => do
      let it ← v.get_interval_ym_unchecked
      .ok it.toStr
  | .CLOB => v.get_clob_as_string_unchecked
  | .BLOB => v.get_blob_as_hex_string_unchecked
  | .Object objtype =>
      if objtype.isCollection then do
        let c ← v.get_collection_unchecked objtype
        .ok c.toStr
      else do
        let o ← v.get_object_unchecked objtype
        .ok o.toStr
  | _ => v.invalid_conversion_to_rust_type "string"

/-- `SqlValue::as_bytes`. -/
def SqlValue.as_bytes (v : SqlValue) : RResult (List Nat) :=
  match v.native_type with
  | .Raw => v.get_raw_unchecked
  | .Char | .CLOB => do
      let s ← v.get_string
      parse_str_into_raw s
  | _ => v.invalid_conversion_to_rust_type "raw"

/-- `SqlValue::as_timestamp`. -/
def SqlValue.as_timestamp (v : SqlValue) : RResult Timestamp :=
  match v.native_type with
  | .Timestamp => v.get_timestamp_unchecked
  | .Char | .CLOB => do
      let s ← v.get_string
      parseTimestampStr s
  | _ => v.invalid_conversion_to_rust_type "Timestamp"

/-- `SqlValue::as_interval_ds`. -/
def SqlValue.as_interval_ds (v : SqlValue) : RResult IntervalDS :=
  match v.native_type with
  | .IntervalDS => v.get_interval_ds_unchecked
  | .Char | .CLOB => do
      let s ← v.get_string
      parseIntervalDSStr s
  | _ => v.invalid_conversion_to_rust_type "IntervalDS"

/-- `SqlValue::as_interval_ym`. -/
def SqlValue.as_interval_ym (v : SqlValue) : RResult IntervalYM :=
  match v.native_type with
  | .IntervalYM => v.get_interval_ym_unchecked
  | .Char | .CLOB => do
      let s ← v.get_string
      parseIntervalYMStr s
  | _ => v.invalid_conversion_to_rust_type "IntervalYM"

/-- `SqlValue::as_collection`. -/
def SqlValue.as_collection (v : SqlValue) : RResult Collection :=
  match v.native_type with
  | .Object objtype =>
      if objtype.isCollection then v.get_collection_unchecked objtype
      else v.invalid_conversion_to_rust_type "Collection"
  | _ => v.invalid_conversion_to_rust_type "Collection"

/-- `SqlValue::as_object`. -/
def SqlValue.as_object (v : SqlValue) : RResult Object :=
  match v.native_type with
  | .Object objtype =>
      if ¬objtype.isCollection then v.get_object_unchecked objtype
      else v.invalid_conversion_to_rust_type "Object"
  | _ => v.invalid_conversion_to_rust_type "Object"

/-- `SqlValue::as_bool`. -/
def SqlValue.as_bool (v : SqlValue) : RResult Bool :=
  match v.native_type with
  | .Boolean => v.get_bool_unchecked
  | _ => v.invalid_conversion_to_rust_type "bool"

/-- Modelled from the spec: the native set-value operations
(`dpiData_setInt64` …) write the payload into the active slot and clear
the per-row null flag (§4.2 "Setting always clears the null flag as a
side effect"; §6 `create_buffer`-family operations). -/
def SqlValue.dpiSetSlotValue (v : SqlValue) (val : DpiValue) : RResult SqlValue :=
  v.setDataSlot ⟨false, val⟩

/-- `SqlValue::set_i64_unchecked` (`dpiData_setInt64`). -/
def SqlValue.set_i64_unchecked (v : SqlValue) (val : Int) : RResult SqlValue :=
  v.dpiSetSlotValue (.vInt64 val)

/-- `SqlValue::set_u64_unchecked` (`dpiData_setUint64`). -/
def SqlValue.set_u64_unchecked (v : SqlValue) (val : Nat) : RResult SqlValue :=
  v.dpiSetSlotValue (.vUInt64 val)

/-- `SqlValue::set_f32_unchecked` (`dpiData_setFloat`). -/
def SqlValue.set_f32_unchecked (v : SqlValue) (val : ℚ) : RResult SqlValue :=
  v.dpiSetSlotValue (.vFloat val)

/-- `SqlValue::set_f64_unchecked` (`dpiData_setDouble`). -/
def SqlValue.set_f64_unchecked (v : SqlValue) (val : ℚ) : RResult SqlValue :=
  v.dpiSetSlotValue (.vDouble val)

/-- `SqlValue::set_bytes_unchecked` — with no driver-owned buffer the
bytes are retained (`keep_bytes`) and pointed to from the slot
(`dpiData_setBytes`); with a buffer they are copied into it
(`dpiVar_setFromBytes`).  Both native operations clear the null flag;
either way the active slot ends up holding `val`. -/
def SqlValue.set_bytes_unchecked (v : SqlValue) (val : List Nat) : RResult SqlValue :=
  match v.handle with
  | none => v.dpiSetSlotValue (.vBytes val)
  | some _ => v.dpiSetSlotValue (.vBytes val)

/-- `SqlValue::set_string_unchecked`. -/
def SqlValue.set_string_unchecked (v : SqlValue) (val : String) : RResult SqlValue :=
  v.set_bytes_unchecked (val.toUTF8.toList.map (fun b => b.toNat))

/-- `SqlValue::set_raw_unchecked`. -/
def SqlValue.set_raw_unchecked (v : SqlValue) (val : List Nat) : RResult SqlValue :=
  v.set_bytes_unchecked val

/-- `SqlValue::set_timestamp_unchecked` (`dpiData_setTimestamp`). -/
def SqlValue.set_timestamp_unchecked (v : SqlValue) (val : Timestamp) : RResult SqlValue :=
  v.dpiSetSlotValue (.vTimestamp val)

/-- `SqlValue::set_interval_ds_unchecked` (`dpiData_setIntervalDS`). -/
def SqlValue.set_interval_ds_unchecked (v : SqlValue) (val : IntervalDS) : RResult SqlValue :=
  v.dpiSetSlotValue (.vIntervalDS val)

/-- `SqlValue::set_interval_ym_unchecked` (`dpiData_setIntervalYM`). -/
def SqlValue.set_interval_ym_unchecked (v : SqlValue) (val : IntervalYM) : RResult SqlValue :=
  v.dpiSetSlotValue (.vIntervalYM val)

/-- `SqlValue::set_string_to_clob_unchecked` — truncate the LOB to zero
length (`dpiLob_trim(lob, 0)`), write the full payload in one call
(`dpiLob_writeBytes(lob, 1, ptr, len)`), then clear the null flag
(`(*data).isNull = 0`). -/
def SqlValue.set_string_to_clob_unchecked (v : SqlValue) (val : String) : RResult SqlValue := do
  let d ← v.dataSlot
  match d.value with
  | .vClob _ => v.setDataSlot ⟨false, .vClob val.data⟩
  | _ => .ub

/-- `SqlValue::set_raw_to_blob_unchecked` — truncate, single write, clear
null flag. -/
def SqlValue.set_raw_to_blob_unchecked (v : SqlValue) (val : List Nat) : RResult SqlValue := do
  let d ← v.dataSlot
  match d.value with
  | .vBlob _ => v.setDataSlot ⟨false, .vBlob val⟩
  | _ => .ub

/-- `SqlValue::set_object_unchecked` — with no driver-owned buffer the
object handle is retained (`keep_dpiobj`) and written into the slot, and
with a buffer `dpiVar_setFromObject` is used; both clear the null
flag. -/
def SqlValue.set_object_unchecked (v : SqlValue) (obj : Nat) : RResult SqlValue :=
  match v.handle with
  | none => v.dpiSetSlotValue (.vObject obj)
  | some _ => v.dpiSetSlotValue (.vObject obj)

/-- `SqlValue::set_bool_unchecked` (`dpiData_setBool`). -/
def SqlValue.set_bool_unchecked (v : SqlValue) (val : Bool) : RResult SqlValue :=
  v.dpiSetSlotValue (.vBool val)

/-- The body generated by `define_fn_set_int!` for an integer host value
(`set_i8` … `set_u64`); the host value is carried as its mathematical
integer, the `as` casts wrap two's-complement, and integer-to-float
casts are kept exact in the rational model. -/
def SqlValue.set_int_generic (v : SqlValue) (val : Int) (host_name : String) :
    RResult SqlValue :=
  match v.native_type with
  | .Int64 => v.set_i64_unchecked (wrapToI64 val)
  | .UInt64 => v.set_u64_unchecked (wrapToU64 val)
  | .Float => v.set_f32_unchecked (val : ℚ)
  | .Double => v.set_f64_unchecked (val : ℚ)
  | .Char | .Number => v.set_string_unchecked (toString val)
  | _ => v.invalid_conversion_from_rust_type host_name

/-- The body generated by `define_fn_set_int!` for a float host value
(`set_f32` / `set_f64`); float-to-integer `as` casts saturate-truncate. -/
def SqlValue.set_flt_generic (v : SqlValue) (val : ℚ) (host_name : String) :
    RResult SqlValue :=
  match v.native_type with
  | .Int64 => v.set_i64_unchecked (ratTruncSat val I64_MIN I64_MAX)
  | .UInt64 => v.set_u64_unchecked (ratTruncSat val 0 (Int.ofNat U64_MAX)).toNat
  | .Float => v.set_f32_unchecked val
  | .Double => v.set_f64_unchecked val
  | .Char | .Number => v.set_string_unchecked (ratToStr val)
  | _ => v.invalid_conversion_from_rust_type host_name

/-- `SqlValue::set_i8`. -/
def SqlValue.set_i8 (v : SqlValue) (val : Int) : RResult SqlValue :=
  v.set_int_generic val "i8"

/-- `SqlValue::set_i16`. -/
def SqlValue.set_i16 (v : SqlValue) (val : Int) : RResult SqlValue :=
  v.set_int_generic val "i16"

/-- `SqlValue::set_i32`. -/
def SqlValue.set_i32 (v : SqlValue) (val : Int) : RResult SqlValue :=
  v.set_int_generic val "i32"

/-- `SqlValue::set_i64`. -/
def SqlValue.set_i64 (v : SqlValue) (val : Int) : RResult SqlValue :=
  v.set_int_generic val "i64"

/-- `SqlValue::set_u8`. -/
def SqlValue.set_u8 (v : SqlValue) (val : Int) : RResult SqlValue :=
  v.set_int_generic val "u8"

/-- `SqlValue::set_u16`. -/
def SqlValue.set_u16 (v : SqlValue) (val : Int) : RResult SqlValue :=
  v.set_int_generic val "u16"

/-- `SqlValue::set_u32`. -/
def SqlValue.set_u32 (v : SqlValue) (val : Int) : RResult SqlValue :=
  v.set_int_generic val "u32"

/-- `SqlValue::set_u64`. -/
def SqlValue.set_u64 (v : SqlValue) (val : Int) : RResult SqlValue :=
  v.set_int_generic val "u64"

/-- `SqlValue::set_f32`. -/
def SqlValue.set_f32 (v : SqlValue) (val : ℚ) : RResult SqlValue :=
  v.set_flt_generic val "f32"

/-- `SqlValue::set_f64`. -/
def SqlValue.set_f64 (v : SqlValue) (val : ℚ) : RResult SqlValue :=
  v.set_flt_generic val "f64"

/-- `SqlValue::set_string`. -/
def SqlValue.set_string (v : SqlValue) (val : String) : RResult SqlValue :=
  match v.native_type with
  | .Int64 => do
      let x ← parseIntInRange val I64_MIN I64_MAX
      v.set_i64_unchecked x
  | .UInt64 => do
      let x ← parseIntInRange val 0 (Int.ofNat U64_MAX)
      v.set_u64_unchecked x.toNat
  | .Float => do
      let x ← parseFloatStr val
      v.set_f32_unchecked x
  | .Double => do
      let x ← parseFloatStr val
      v.set_f64_unchecked x
  | .Char => v.set_string_unchecked val
  | .Number => do
      check_number_format val
      v.set_string_unchecked val
  | .Raw => do
      let b ← parse_str_into_raw val
      v.set_raw_unchecked b
  | .Timestamp => do
      let t ← parseTimestampStr val
      v.set_timestamp_unchecked t
  | .IntervalDS => do
      let it ← parseIntervalDSStr val
      v.set_interval_ds_unchecked it
  | .IntervalYM => do
      let it ← parseIntervalYMStr val
      v.set_interval_ym_unchecked it
  | .CLOB => v.set_string_to_clob_unchecked val
  | .BLOB => do
      let b ← parse_str_into_raw val
      v.set_raw_to_blob_unchecked b
  | _ => v.invalid_conversion_from_rust_type "&str"

/-- `SqlValue::set_bytes`. -/
def SqlValue.set_bytes (v : SqlValue) (val : List Nat) : RResult SqlValue :=
  match v.native_type with
  | .Raw => v.set_raw_unchecked val
  | .BLOB => v.set_raw_to_blob_unchecked val
  | _ => v.invalid_conversion_from_rust_type "Vec<u8>"

/-- `SqlValue::set_timestamp`. -/
def SqlValue.set_timestamp (v : SqlValue) (val : Timestamp) : RResult SqlValue :=
  match v.native_type with
  | .Timestamp => v.set_timestamp_unchecked val
  | _ => v.invalid_conversion_from_rust_type "Timestamp"

/-- `SqlValue::set_interval_ds`. -/
def SqlValue.set_interval_ds (v : SqlValue) (val : IntervalDS) : RResult SqlValue :=
  match v.native_type with
  | .IntervalDS => v.set_interval_ds_unchecked val
  | _ => v.invalid_conversion_from_rust_type "IntervalDS"

/-- `SqlValue::set_interval_ym`. -/
def SqlValue.set_interval_ym (v : SqlValue) (val : IntervalYM) : RResult SqlValue :=
  match v.native_type with
  | .IntervalYM => v.set_interval_ym_unchecked val
  | _ => v.invalid_conversion_from_rust_type "IntervalYM"

/-- `SqlValue::set_object`. -/
def SqlValue.set_object (v : SqlValue) (val : Object) : RResult SqlValue :=
  match v.native_type with
  | .Object _ => v.set_object_unchecked val.handle
  | _ => v.invalid_conversion_from_rust_type "Object"

/-- `SqlValue::set_collection`. -/
def SqlValue.set_collection (v : SqlValue) (val : Collection) : RResult SqlValue :=
  match v.native_type with
  | .Object _ => v.set_object_unchecked val.handle
  | _ => v.invalid_conversion_from_rust_type "Collection"

/-- `SqlValue::set_bool`. -/
def SqlValue.set_bool (v : SqlValue) (val : Bool) : RResult SqlValue :=
  match v.native_type with
  | .Boolean => v.set_bool_unchecked val
  | _ => v.invalid_conversion_from_rust_type "bool"

/-- The usize modulus (64-bit platform). -/
def USIZE_MOD : Nat := 2 ^ 64

/-- `impl BindIndex for usize — fn idx` (`statement.rs`): the guard is
`0 < num && *self <= num` (`num` is the bind count), then `*self - 1` is
returned.  `*self - 1` is usize arithmetic: at `*self = 0` it underflows
(a panic in debug builds, a wrap to `2^64 - 1` in release builds); the
wrapping result is modelled. -/
def bindIndex_usize_idx (bind_count : Nat) (i : Nat) : RResult Nat :=
  if 0 < bind_count ∧ i ≤ bind_count then
    .ok ((i + (USIZE_MOD - 1)) % USIZE_MOD)
  else
    .err (.InvalidBindIndex i)

/-- `ColumnInfo` — name, Logical Type and nullability of one query
column. -/
structure ColumnInfo where
  name : String
  oracle_type : OracleType
  nullable : Bool
  deriving DecidableEq, Repr

/-- `impl ColumnIndex for usize — fn idx` (`statement.rs`): valid iff
`*self < ncols`, mapping to the same index. -/
def columnIndex_usize_idx (column_info : List ColumnInfo) (i : Nat) : RResult Nat :=
  if i < column_info.length then .ok i
  else .err (.InvalidColumnIndex i)

/-- `Row` — the fetched view over the column value cells. -/
structure Row where
  column_info : List ColumnInfo
  column_values : List SqlValue
  deriving DecidableEq, Repr

/-- `Row::get` up to the `FromSql` conversion: resolve the column index,
then address `self.column_values[pos]` (a `Vec` index: out of bounds is a
panic).  The typed conversion `FromSql::from_sql` is then applied to the
returned cell. -/
def Row.getCell (row : Row) (i : Nat) : RResult SqlValue := do
  let pos ← columnIndex_usize_idx row.column_info i
  match row.column_values[pos]? with
  | some c => .ok c
  | none => .ub

/-- Modelled from the spec: `DPI_MAX_INT64_PRECISION` — the fixed
maximum integer precision threshold of the native client capability; the
source comment in `execute_internal` names it: "number whose prec is
less than 18". -/
def DPI_MAX_INT64_PRECISION : Nat := 18

/-- Modelled from the spec: `DPI_DEFAULT_FETCH_ARRAY_SIZE` — the number
of rows buffered per round trip (§3 fetch array size). -/
def DPI_DEFAULT_FETCH_ARRAY_SIZE : Nat := 100

/-- The column-type override of `Statement::execute_internal`: a NUMBER
column with scale exactly 0 and precision strictly between 0 and
`DPI_MAX_INT64_PRECISION` is defined as `Int64` instead of its catalog
mapping. -/
def column_define_oratype (oratype : OracleType) : OracleType :=
  match oratype with
  | .Number prec scale =>
      if scale = 0 ∧ 0 < prec ∧ prec < DPI_MAX_INT64_PRECISION then .Int64
      else .Number prec scale
  | _ => oratype

/-- The per-column setup step of `execute_internal`: apply the override,
then allocate the column cell with capacity `DPI_DEFAULT_FETCH_ARRAY_SIZE`
via `init_handle` on a fresh cell (the cell is then attached with
`dpiStmt_define`). -/
def setup_column_value (oratype : OracleType) (st : AllocState) :
    SqlValue × AllocState :=
  let ot := column_define_oratype oratype
  let (_, v, st') := SqlValue.new.init_handle ot DPI_DEFAULT_FETCH_ARRAY_SIZE st
  (v, st')

/-- Modelled from the spec: the driver's pending row stream behind
`fetch_next` (§6): each successful fetch yields the buffer slot index of
the next buffered row; an empty stream reports "no row found". -/
structure FetchStream where
  rows : List Nat
  deriving DecidableEq, Repr

/-- The `Statement` fields relevant to the fetch lifecycle. -/
structure Statement where
  row : Row
  fetch_array_size : Nat
  bind_count : Nat
  bind_names : List String
  bind_values : List SqlValue
  stream : FetchStream
  deriving DecidableEq, Repr

/-- `Statement::fetch` — ask the driver for the next buffered row
(`dpiStmt_fetch`); when found, reposition every column cell's
`buffer_row_index` to the returned slot and return the row view;
otherwise return `Error::NoMoreData`.  No other statement state is
touched, and the statement is not re-executed. -/
def Statement.fetch (st : Statement) : Statement × RResult Row :=
  match st.stream.rows with
  | [] => (st, .err .NoMoreData)
  | r :: rest =>
    let row' : Row :=
      { st.row with
          column_values := st.row.column_values.map
            (fun v => { v with buffer_row_index := r }) }
    ({ st with row := row', stream := ⟨rest⟩ }, .ok row')

/-- `Statement::bind` up to the value write: resolve the bind index,
address `self.bind_values[pos]` (a `Vec` index: out of bounds is a
panic), reconcile the cell's buffer via `init_handle` (re-attaching the
buffer on reallocation), and return the updated statement; the `ToSql`
write into the cell then follows. -/
def Statement.bind_step (st : Statement) (i : Nat) (oratype : OracleType)
    (alloc : AllocState) : RResult (Statement × AllocState) := do
  let pos ← bindIndex_usize_idx st.bind_count i
  match st.bind_values[pos]? with
  | none => .ub
  | some v =>
    let (_, v', alloc') := v.init_handle oratype 1 alloc
    .ok ({ st with bind_values := st.bind_values.set pos v' }, alloc')

/-- Membership of a driver type code in the character/raw family of the
reuse rule. -/
def charRawFamily (n : Nat) : Prop :=
  n = DPI_ORACLE_TYPE_VARCHAR ∨ n = DPI_ORACLE_TYPE_NVARCHAR ∨
  n = DPI_ORACLE_TYPE_CHAR ∨ n = DPI_ORACLE_TYPE_NCHAR ∨
  n = DPI_ORACLE_TYPE_RAW

instance (n : Nat) : Decidable (charRawFamily n) := by
  unfold charRawFamily
  infer_instance

/-- The reuse condition exactly as the claim states it: a buffer handle
is present, the cell's array size equals the requested one, the current
Logical Type's catalog entry has the same driver type code as the
requested type, and additionally for the character/raw family the
existing buffer size is at least the requested one, or for the object
family the native encodings are equal. -/
def ReusableSpec (v : SqlValue) (oratype : OracleType) (array_size : Nat) : Prop :=
  v.handle ≠ none ∧ v.array_size = array_size ∧
  ∃ cur, v.oratype = some cur ∧
    (cur.var_create_param).1 = (oratype.var_create_param).1 ∧
    (charRawFamily (cur.var_create_param).1 →
      (cur.var_create_param).2.2.1 ≥ (oratype.var_create_param).2.2.1) ∧
    ((cur.var_create_param).1 = DPI_ORACLE_TYPE_OBJECT →
      (cur.var_create_param).2.1 = (oratype.var_create_param).2.1)

/-- The amended null-dispatch property for the typed getters of a null
cell with Logical Type `ot`: within the arms a getter accepts, the null
check fires first and the failure is `NullValue`; outside them, the
encoding dispatch precedes the null check and the failure is the
conversion error. -/
def NullFirstWithinAcceptedArms (v : SqlValue) (ot : OracleType) : Prop :=
  ((v.native_type = .Int64 ∨ v.native_type = .UInt64 ∨ v.native_type = .Float ∨
    v.native_type = .Double ∨ v.native_type = .Char ∨ v.native_type = .CLOB ∨
    v.native_type = .Number) →
      (∀ d, v.as_int_generic d = .err .NullValue) ∧
      v.as_i64 = .err .NullValue ∧ v.as_u64 = .err .NullValue ∧
      v.as_f32 = .err .NullValue ∧ v.as_f64 = .err .NullValue) ∧
  (v.native_type ≠ .Boolean → v.as_string = .err .NullValue) ∧
  ((v.native_type = .Raw ∨ v.native_type = .Char ∨ v.native_type = .CLOB) →
      v.as_bytes = .err .NullValue) ∧
  ((v.native_type = .Timestamp ∨ v.native_type = .Char ∨ v.native_type = .CLOB) →
      v.as_timestamp = .err .NullValue) ∧
  (v.native_type = .Boolean → v.as_bool = .err .NullValue) ∧
  (v.native_type = .Boolean →
      v.as_i64 = .err (.InvalidTypeConversion ot.toStr "i64")) ∧
  (v.native_type ≠ .Boolean →
      v.as_bool = .err (.InvalidTypeConversion ot.toStr "bool"))

/-- A fresh allocator state. -/
def exampleAlloc : AllocState := ⟨1, []⟩

/-- A `VARCHAR2(10)` cell whose current value is null. -/
def exampleVarcharNullCell : SqlValue :=
  { handle := some 1
    data := some [⟨true, .vBytes []⟩]
    native_type := .Char
    oratype := some (.Varchar2 10)
    array_size := 1
    buffer_row_index := 0 }

/-- A `BINARY_FLOAT` cell holding the (exactly representable) `f32`
value `2147483648.0 = 2^31`, one above `i32::max_value()`. -/
def exampleFloatCell : SqlValue :=
  { handle := some 1
    data := some [⟨false, .vFloat 2147483648⟩]
    native_type := .Float
    oratype := some .BinaryFloat
    array_size := 1
    buffer_row_index := 0 }

/-- An `Int64`-encoded cell holding the integer `k`, as a query column
defined through the NUMBER→Int64 override holds after a fetch. -/
def exampleIntCell (k : Int) : SqlValue :=
  { handle := some 1
    data := some [⟨false, .vInt64 k⟩]
    native_type := .Int64
    oratype := some .Int64
    array_size := 1
    buffer_row_index := 0 }

/-- The cell `exampleIntCell 5` right after `set_null`. -/
def exampleIntCellSetNull : SqlValue :=
  { handle := some 1
    data := some [⟨true, .vInt64 5⟩]
    native_type := .Int64
    oratype := some .Int64
    array_size := 1
    buffer_row_index := 0 }

/-- A `CLOB` column cell whose current value is null. -/
def exampleClobCell : SqlValue :=
  { handle := some 1
    data := some [⟨true, .vClob []⟩]
    native_type := .CLOB
    oratype := some .CLOB
    array_size := 1
    buffer_row_index := 0 }

/-- A payload longer than two read chunks (20000 > 2 · 8192). -/
def exampleLongPayload : String := String.mk (List.replicate 20000 'a')

/-- A prepared statement with one bind slot and nothing fetched. -/
def exampleStmt1 : Statement :=
  { row := ⟨[], []⟩
    fetch_array_size := 0
    bind_count := 1
    bind_names := ["VAL1"]
    bind_values := [SqlValue.new]
    stream := ⟨[]⟩ }

/-- An executed query statement with one column cell and one pending
buffered row at slot 7. -/
def exampleStmtFetch : Statement :=
  { row := ⟨[⟨"C1", .Int64, true⟩], [exampleIntCell 5]⟩
    fetch_array_size := 100
    bind_count := 0
    bind_names := []
    bind_values := []
    stream := ⟨[7]⟩ }

/-- An exhausted query statement (no pending rows). -/
def exampleStmtDone : Statement :=
  { row := ⟨[⟨"C1", .Int64, true⟩], [exampleIntCell 5]⟩
    fetch_array_size := 100
    bind_count := 0
    bind_names := []
    bind_values := []
    stream := ⟨[]⟩ }

/-- A fetched row with two columns. -/
def exampleRow2 : Row :=
  ⟨[⟨"A", .Int64, true⟩, ⟨"B", .Varchar2 10, true⟩],
   [exampleIntCell 3, exampleVarcharNullCell]⟩

/-! ## Helper lemmas -/

theorem check_not_null_of_null (v : SqlValue) (h : v.is_null = .ok true) :
    v.check_not_null = .err .NullValue := by
  unfold SqlValue.check_not_null
  show RResult.bindR v.is_null _ = _
  rw [h]
  rfl

theorem bindR_err {α β : Type} (e : Error) (f : α → RResult β) :
    RResult.bindR (.err e) f = .err e := rfl

theorem setDataSlot_ok_fields (v v' : SqlValue) (d : DpiData)
    (h : v.setDataSlot d = .ok v') :
    v'.handle = v.handle ∧ v'.native_type = v.native_type ∧
    v'.oratype = v.oratype ∧ v'.array_size = v.array_size ∧
    v'.buffer_row_index = v.buffer_row_index ∧ v'.dataSlot = .ok d := by
  unfold SqlValue.setDataSlot at h
  split at h
  · cases h
  · rename_i arr harr
    split at h
    · rename_i hlt
      cases h
      refine ⟨rfl, rfl, rfl, rfl, rfl, ?_⟩
      show (match (arr.set v.buffer_row_index d)[v.buffer_row_index]? with
            | some x => RResult.ok x
            | none => RResult.ub) = RResult.ok d
      rw [List.getElem?_set_eq_of_lt d hlt]
    · cases h

theorem setDataSlot_isNull_false (v v' : SqlValue) (val : DpiValue)
    (h : v.setDataSlot ⟨false, val⟩ = .ok v') :
    v'.is_null = .ok false := by
  have hs := (setDataSlot_ok_fields v v' ⟨false, val⟩ h).2.2.2.2.2
  unfold SqlValue.is_null
  show RResult.bindR v'.dataSlot _ = _
  rw [hs]
  rfl

theorem dpiSetSlotValue_isNull_false (v v' : SqlValue) (val : DpiValue)
    (h : v.dpiSetSlotValue val = .ok v') :
    v'.is_null = .ok false :=
  setDataSlot_isNull_false v v' val h

/-! ## C2 -/

/-- C2: the positional bind-index resolution accepts index 0 whenever
the statement has any bind slot: at `bind_count = 1` the guard
`0 < num && *self <= num` passes for index 0 and `*self - 1` underflows
usize, resolving to slot `2^64 - 1` instead of failing with
`InvalidBindIndex(0)`; the subsequent `bind_values[pos]` access is a
panic.  Indexes above `bind_count` do fail as the claim states. -/
theorem c2_bind_index_zero_underflow :
    bindIndex_usize_idx 1 0 = .ok (2 ^ 64 - 1) ∧
    exampleStmt1.bind_step 0 (.Varchar2 10) exampleAlloc = .ub ∧
    bindIndex_usize_idx 1 2 = .err (.InvalidBindIndex 2) ∧
    bindIndex_usize_idx 1 1 = .ok 0 := by
  refine ⟨?_, ?_, ?_, ?_⟩ <;> decide

/-! ## C4 -/

/-- C4: on a cell produced by the plain constructor (no Logical Type,
null `data` pointer, default native type `Int64`), accessors whose
dispatch accepts the `Int64` encoding dereference the null data pointer
(undefined behavior) instead of failing with `UninitializedBindValue`;
only accessors whose dispatch rejects `Int64` reach the
`UninitializedBindValue` error. -/
theorem c4_uninitialized_accessors :
    SqlValue.new.oratype = none ∧
    SqlValue.new.as_i64 = .ub ∧
    SqlValue.new.as_string = .ub ∧
    SqlValue.new.is_null = .ub ∧
    (SqlValue.new.set_i64 5 = .ub) ∧
    SqlValue.new.as_bool = .err .UninitializedBindValue ∧
    SqlValue.new.as_timestamp = .err .UninitializedBindValue ∧
    SqlValue.new.set_bool true = .err .UninitializedBindValue := by
  refine ⟨rfl, ?_, ?_, ?_, ?_, ?_, ?_, ?_⟩ <;> decide

/-! ## C10 -/

/-- C10: row access by position is 0-based: resolution succeeds exactly
for `i < n` (addressing column `i` itself), and fails with
`InvalidColumnIndex(i)` for `i ≥ n`. -/
theorem c10_column_index_resolution (row : Row) (i : Nat)
    (hlen : row.column_values.length = row.column_info.length) :
    (i < row.column_info.length →
       columnIndex_usize_idx row.column_info i = .ok i ∧
       ∃ c, row.column_values[i]? = some c ∧ row.getCell i = .ok c) ∧
    (row.column_info.length ≤ i →
       row.getCell i = .err (.InvalidColumnIndex i)) := by
  constructor
  · intro hi
    have hidx : columnIndex_usize_idx row.column_info i = .ok i := by
      unfold columnIndex_usize_idx
      rw [if_pos hi]
    have hiv : i < row.column_values.length := by omega
    refine ⟨hidx, row.column_values[i], List.getElem?_eq_getElem hiv, ?_⟩
    unfold Row.getCell
    show RResult.bindR (columnIndex_usize_idx row.column_info i) _ = _
    rw [hidx]
    show (match row.column_values[i]? with
          | some c => RResult.ok c
          | none => RResult.ub) = _
    rw [List.getElem?_eq_getElem hiv]
  · intro hi
    have hidx : columnIndex_usize_idx row.column_info i =
        .err (.InvalidColumnIndex i) := by
      unfold columnIndex_usize_idx
      rw [if_neg (by omega)]
    unfold Row.getCell
    show RResult.bindR (columnIndex_usize_idx row.column_info i) _ = _
    rw [hidx]
    rfl

/-- C10 witness: on a two-column row, index 0 addresses the first column
and index 2 fails with `InvalidColumnIndex(2)`. -/
theorem c10_column_index_resolution_witness :
    exampleRow2.getCell 2 = .err (.InvalidColumnIndex 2) ∧
    exampleRow2.getCell 0 = .ok (exampleIntCell 3) := by
  constructor
  · exact (c10_column_index_resolution exampleRow2 2 rfl).2 (by decide)
  · have h := (c10_column_index_resolution exampleRow2 0 rfl).1 (by decide)
    obtain ⟨-, c, hc, hget⟩ := h
    have : c = exampleIntCell 3 := by
      rw [show exampleRow2.column_values[0]? = some (exampleIntCell 3) from rfl] at hc
      cases hc
      rfl
    rw [this] at hget
    exact hget

/-! ## C8 -/

/-- C8: a successful `fetch` repositions every column cell's
`buffer_row_index` to the buffer slot index reported by the driver and
returns the row view, consuming one pending row; on exhaustion `fetch`
returns `NoMoreData` and leaves the statement entirely unchanged, so
every subsequent call returns `NoMoreData` again without
re-execution. -/
theorem c8_fetch_behavior (st : Statement) :
    (∀ r rest, st.stream.rows = r :: rest →
       st.fetch.2 = .ok st.fetch.1.row ∧
       (∀ v, v ∈ st.fetch.1.row.column_values → v.buffer_row_index = r) ∧
       st.fetch.1.stream.rows = rest ∧
       st.fetch.1.bind_values = st.bind_values ∧
       st.fetch.1.bind_count = st.bind_count) ∧
    (st.stream.rows = [] →
       st.fetch = (st, .err .NoMoreData) ∧
       st.fetch.1.fetch = (st, .err .NoMoreData)) := by
  constructor
  · intro r rest hrows
    unfold Statement.fetch
    rw [hrows]
    refine ⟨rfl, ?_, rfl, rfl, rfl⟩
    intro v hv
    simp only [List.mem_map] at hv
    obtain ⟨w, -, hw⟩ := hv
    rw [← hw]
  · intro hrows
    have h1 : st.fetch = (st, .err .NoMoreData) := by
      unfold Statement.fetch
      rw [hrows]
    refine ⟨h1, ?_⟩
    rw [h1]
    exact h1

/-- C8 witness: one pending row at buffer slot 7 is delivered with the
column cell repositioned to 7; afterwards (and on an exhausted
statement) `fetch` keeps returning `NoMoreData` without state change. -/
theorem c8_fetch_behavior_witness :
    exampleStmtFetch.fetch.2 = .ok exampleStmtFetch.fetch.1.row ∧
    (∀ v, v ∈ exampleStmtFetch.fetch.1.row.column_values →
      v.buffer_row_index = 7) ∧
    exampleStmtDone.fetch = (exampleStmtDone, .err .NoMoreData) := by
  have h1 := (c8_fetch_behavior exampleStmtFetch).1 7 [] rfl
  have h2 := (c8_fetch_behavior exampleStmtDone).2 rfl
  exact ⟨h1.1, h1.2.1, h2.1⟩

/-! ## Null propagation through the unchecked getters -/

theorem bind_err_law {α β : Type} (e : Error) (f : α → RResult β) :
    (RResult.err e : RResult α) >>= f = .err e := rfl

theorem bind_ok_law {α β : Type} (a : α) (f : α → RResult β) :
    (RResult.ok a : RResult α) >>= f = f a := rfl

theorem get_i64_unchecked_null (v : SqlValue) (h : v.is_null = .ok true) :
    v.get_i64_unchecked = .err .NullValue := by
  unfold SqlValue.get_i64_unchecked
  show RResult.bindR v.check_not_null _ = _
  rw [check_not_null_of_null v h]
  rfl

theorem get_u64_unchecked_null (v : SqlValue) (h : v.is_null = .ok true) :
    v.get_u64_unchecked = .err .NullValue := by
  unfold SqlValue.get_u64_unchecked
  show RResult.bindR v.check_not_null _ = _
  rw [check_not_null_of_null v h]
  rfl

theorem get_f32_unchecked_null (v : SqlValue) (h : v.is_null = .ok true) :
    v.get_f32_unchecked = .err .NullValue := by
  unfold SqlValue.get_f32_unchecked
  show RResult.bindR v.check_not_null _ = _
  rw [check_not_null_of_null v h]
  rfl

theorem get_f64_unchecked_null (v : SqlValue) (h : v.is_null = .ok true) :
    v.get_f64_unchecked = .err .NullValue := by
  unfold SqlValue.get_f64_unchecked
  show RResult.bindR v.check_not_null _ = _
  rw [check_not_null_of_null v h]
  rfl

theorem get_string_unchecked_null (v : SqlValue) (h : v.is_null = .ok true) :
    v.get_string_unchecked = .err .NullValue := by
  unfold SqlValue.get_string_unchecked
  show RResult.bindR v.check_not_null _ = _
  rw [check_not_null_of_null v h]
  rfl

theorem get_raw_unchecked_null (v : SqlValue) (h : v.is_null = .ok true) :
    v.get_raw_unchecked = .err .NullValue := by
  unfold SqlValue.get_raw_unchecked
  show RResult.bindR v.check_not_null _ = _
  rw [check_not_null_of_null v h]
  rfl

theorem get_raw_as_hex_string_unchecked_null (v : SqlValue)
    (h : v.is_null = .ok true) :
    v.get_raw_as_hex_string_unchecked = .err .NullValue := by
  unfold SqlValue.get_raw_as_hex_string_unchecked
  show RResult.bindR v.check_not_null _ = _
  rw [check_not_null_of_null v h]
  rfl

theorem get_timestamp_unchecked_null (v : SqlValue) (h : v.is_null = .ok true) :
    v.get_timestamp_unchecked = .err .NullValue := by
  unfold SqlValue.get_timestamp_unchecked
  show RResult.bindR v.check_not_null _ = _
  rw [check_not_null_of_null v h]
  rfl

theorem get_interval_ds_unchecked_null (v : SqlValue) (h : v.is_null = .ok true) :
    v.get_interval_ds_unchecked = .err .NullValue := by
  unfold SqlValue.get_interval_ds_unchecked
  show RResult.bindR v.check_not_null _ = _
  rw [check_not_null_of_null v h]
  rfl

theorem get_interval_ym_unchecked_null (v : SqlValue) (h : v.is_null = .ok true) :
    v.get_interval_ym_unchecked = .err .NullValue := by
  unfold SqlValue.get_interval_ym_unchecked
  show RResult.bindR v.check_not_null _ = _
  rw [check_not_null_of_null v h]
  rfl

theorem get_clob_as_string_unchecked_null (v : SqlValue)
    (h : v.is_null = .ok true) :
    v.get_clob_as_string_unchecked = .err .NullValue := by
  unfold SqlValue.get_clob_as_string_unchecked
  show RResult.bindR v.check_not_null _ = _
  rw [check_not_null_of_null v h]
  rfl

theorem get_blob_as_hex_string_unchecked_null (v : SqlValue)
    (h : v.is_null = .ok true) :
    v.get_blob_as_hex_string_unchecked = .err .NullValue := by
  unfold SqlValue.get_blob_as_hex_string_unchecked
  show RResult.bindR v.check_not_null _ = _
  rw [check_not_null_of_null v h]
  rfl

theorem get_collection_unchecked_null (v : SqlValue) (objtype : ObjectType)
    (h : v.is_null = .ok true) :
    v.get_collection_unchecked objtype = .err .NullValue := by
  unfold SqlValue.get_collection_unchecked
  show RResult.bindR v.check_not_null _ = _
  rw [check_not_null_of_null v h]
  rfl

theorem get_object_unchecked_null (v : SqlValue) (objtype : ObjectType)
    (h : v.is_null = .ok true) :
    v.get_object_unchecked objtype = .err .NullValue := by
  unfold SqlValue.get_object_unchecked
  show RResult.bindR v.check_not_null _ = _
  rw [check_not_null_of_null v h]
  rfl

theorem get_bool_unchecked_null (v : SqlValue) (h : v.is_null = .ok true) :
    v.get_bool_unchecked = .err .NullValue := by
  unfold SqlValue.get_bool_unchecked
  show RResult.bindR v.check_not_null _ = _
  rw [check_not_null_of_null v h]
  rfl

theorem get_string_null (v : SqlValue) (h : v.is_null = .ok true)
    (hnt : v.native_type = .Char ∨ v.native_type = .Number ∨
           v.native_type = .CLOB) :
    v.get_string = .err .NullValue := by
  unfold SqlValue.get_string
  rcases hnt with hnt | hnt | hnt
  · rw [hnt]
    exact get_string_unchecked_null v h
  · rw [hnt]
    exact get_string_unchecked_null v h
  · rw [hnt]
    exact get_clob_as_string_unchecked_null v h

/-! ## C3 -/

/-- C3 counterexample: on a null `VARCHAR2(10)` cell, `as_bool` fails
with `InvalidTypeConversion`, not `NullValue` — the encoding dispatch
precedes the null check, refuting the claim that the null check comes
first regardless of whether the conversion is permitted. -/
theorem c3_nullvalue_counterexample :
    exampleVarcharNullCell.is_null = .ok true ∧
    exampleVarcharNullCell.as_bool =
      .err (.InvalidTypeConversion "VARCHAR2(10)" "bool") ∧
    exampleVarcharNullCell.as_bool ≠ .err .NullValue := by
  refine ⟨by decide, by decide, by decide⟩

/-- C3 (amended): on a null cell, every typed getter whose dispatch
accepts the cell's Native Encoding fails with `NullValue` (the null
check fires before any conversion within the accepted arms); a getter
whose dispatch rejects the encoding fails with the conversion error
instead, even though the value is null. -/
theorem c3_null_dispatch (v : SqlValue) (ot : OracleType)
    (hnull : v.is_null = .ok true) (hot : v.oratype = some ot) :
    NullFirstWithinAcceptedArms v ot := by
  have hic : ∀ (α : Type) (s : String),
      (v.invalid_conversion_to_rust_type s : RResult α) =
        .err (.InvalidTypeConversion ot.toStr s) := by
    intro α s
    unfold SqlValue.invalid_conversion_to_rust_type
    rw [hot]
  unfold NullFirstWithinAcceptedArms
  cases hv : v.native_type <;>
    simp [SqlValue.as_int_generic, SqlValue.as_i64, SqlValue.as_u64,
      SqlValue.as_f32, SqlValue.as_f64, SqlValue.as_string,
      SqlValue.as_bytes, SqlValue.as_timestamp, SqlValue.as_bool, hv,
      get_i64_unchecked_null v hnull, get_u64_unchecked_null v hnull,
      get_f32_unchecked_null v hnull, get_f64_unchecked_null v hnull,
      get_string_unchecked_null v hnull, get_raw_unchecked_null v hnull,
      get_raw_as_hex_string_unchecked_null v hnull,
      get_timestamp_unchecked_null v hnull,
      get_interval_ds_unchecked_null v hnull,
      get_interval_ym_unchecked_null v hnull,
      get_clob_as_string_unchecked_null v hnull,
      get_blob_as_hex_string_unchecked_null v hnull,
      get_bool_unchecked_null v hnull,
      get_string_null v hnull,
      fun t => get_collection_unchecked_null v t hnull,
      fun t => get_object_unchecked_null v t hnull,
      hic, bind_err_law]

/-- C3 witness: the amended property holds at the concrete null
`VARCHAR2(10)` cell. -/
theorem c3_null_dispatch_witness :
    NullFirstWithinAcceptedArms exampleVarcharNullCell (.Varchar2 10) :=
  c3_null_dispatch exampleVarcharNullCell (.Varchar2 10) (by decide) rfl

/-! ## C9 -/

theorem bind_ub_law {α β : Type} (f : α → RResult β) :
    (RResult.ub : RResult α) >>= f = .ub := rfl

theorem invalid_conversion_from_rust_type_ne_ok {α : Type} (v : SqlValue)
    (s : String) (a : α) : v.invalid_conversion_from_rust_type s ≠ .ok a := by
  unfold SqlValue.invalid_conversion_from_rust_type
  cases v.oratype <;> simp

theorem set_bytes_unchecked_eq (v : SqlValue) (val : List Nat) :
    v.set_bytes_unchecked val = v.dpiSetSlotValue (.vBytes val) := by
  unfold SqlValue.set_bytes_unchecked
  cases v.handle <;> rfl

theorem set_object_unchecked_eq (v : SqlValue) (obj : Nat) :
    v.set_object_unchecked obj = v.dpiSetSlotValue (.vObject obj) := by
  unfold SqlValue.set_object_unchecked
  cases v.handle <;> rfl

theorem set_string_to_clob_unchecked_ok_isNull (v v' : SqlValue) (s : String)
    (h : v.set_string_to_clob_unchecked s = .ok v') : v'.is_null = .ok false := by
  unfold SqlValue.set_string_to_clob_unchecked at h
  cases hd : v.dataSlot with
  | ok d =>
    simp only [hd, bind_ok_law] at h
    cases hval : d.value <;> simp only [hval] at h <;>
      first
        | exact setDataSlot_isNull_false v v' _ h
        | cases h
  | err e => simp only [hd, bind_err_law] at h; cases h
  | ub => simp only [hd, bind_ub_law] at h; cases h

theorem set_raw_to_blob_unchecked_ok_isNull (v v' : SqlValue) (b : List Nat)
    (h : v.set_raw_to_blob_unchecked b = .ok v') : v'.is_null = .ok false := by
  unfold SqlValue.set_raw_to_blob_unchecked at h
  cases hd : v.dataSlot with
  | ok d =>
    simp only [hd, bind_ok_law] at h
    cases hval : d.value <;> simp only [hval] at h <;>
      first
        | exact setDataSlot_isNull_false v v' _ h
        | cases h
  | err e => simp only [hd, bind_err_law] at h; cases h
  | ub => simp only [hd, bind_ub_law] at h; cases h

theorem set_int_generic_ok_isNull (v v' : SqlValue) (x : Int) (name : String)
    (h : v.set_int_generic x name = .ok v') : v'.is_null = .ok false := by
  unfold SqlValue.set_int_generic at h
  cases hv : v.native_type <;> simp only [hv] at h <;>
    first
      | exact dpiSetSlotValue_isNull_false v v' _
          (by simpa [SqlValue.set_i64_unchecked, SqlValue.set_u64_unchecked,
                SqlValue.set_f32_unchecked, SqlValue.set_f64_unchecked,
                SqlValue.set_string_unchecked, set_bytes_unchecked_eq] using h)
      | exact absurd h (invalid_conversion_from_rust_type_ne_ok v name v')

theorem set_flt_generic_ok_isNull (v v' : SqlValue) (q : ℚ) (name : String)
    (h : v.set_flt_generic q name = .ok v') : v'.is_null = .ok false := by
  unfold SqlValue.set_flt_generic at h
  cases hv : v.native_type <;> simp only [hv] at h <;>
    first
      | exact dpiSetSlotValue_isNull_false v v' _
          (by simpa [SqlValue.set_i64_unchecked, SqlValue.set_u64_unchecked,
                SqlValue.set_f32_unchecked, SqlValue.set_f64_unchecked,
                SqlValue.set_string_unchecked, set_bytes_unchecked_eq] using h)
      | exact absurd h (invalid_conversion_from_rust_type_ne_ok v name v')

theorem set_string_ok_isNull (v v' : SqlValue) (s : String)
    (h : v.set_string s = .ok v') : v'.is_null = .ok false := by
  unfold SqlValue.set_string at h
  cases hv : v.native_type <;> simp only [hv] at h
  case Int64 =>
    cases hp : parseIntInRange s I64_MIN I64_MAX <;>
      simp only [hp, bind_ok_law, bind_err_law, bind_ub_law] at h
    · exact dpiSetSlotValue_isNull_false v v' _
        (by simpa [SqlValue.set_i64_unchecked] using h)
    · cases h
    · cases h
  case UInt64 =>
    cases hp : parseIntInRange s 0 (Int.ofNat U64_MAX) <;>
      simp only [hp, bind_ok_law, bind_err_law, bind_ub_law] at h
    · exact dpiSetSlotValue_isNull_false v v' _
        (by simpa [SqlValue.set_u64_unchecked] using h)
    · cases h
    · cases h
  case Float =>
    cases hp : parseFloatStr s <;>
      simp only [hp, bind_ok_law, bind_err_law, bind_ub_law] at h
    · exact dpiSetSlotValue_isNull_false v v' _
        (by simpa [SqlValue.set_f32_unchecked] using h)
    · cases h
    · cases h
  case Double =>
    cases hp : parseFloatStr s <;>
      simp only [hp, bind_ok_law, bind_err_law, bind_ub_law] at h
    · exact dpiSetSlotValue_isNull_false v v' _
        (by simpa [SqlValue.set_f64_unchecked] using h)
    · cases h
    · cases h
  case Char =>
    exact dpiSetSlotValue_isNull_false v v' _
      (by simpa [SqlValue.set_string_unchecked, set_bytes_unchecked_eq] using h)
  case Number =>
    cases hp : check_number_format s <;>
      simp only [hp, bind_ok_law, bind_err_law, bind_ub_law] at h
    · exact dpiSetSlotValue_isNull_false v v' _
        (by simpa [SqlValue.set_string_unchecked, set_bytes_unchecked_eq] using h)
    · cases h
    · cases h
  case Raw =>
    cases hp : parse_str_into_raw s <;>
      simp only [hp, bind_ok_law, bind_err_law, bind_ub_law] at h
    · exact dpiSetSlotValue_isNull_false v v' _
        (by simpa [SqlValue.set_raw_unchecked, set_bytes_unchecked_eq] using h)
    · cases h
    · cases h
  case Timestamp =>
    simp only [parseTimestampStr, bind_err_law] at h
    cases h
  case IntervalDS =>
    simp only [parseIntervalDSStr, bind_err_law] at h
    cases h
  case IntervalYM =>
    simp only [parseIntervalYMStr, bind_err_law] at h
    cases h
  case CLOB =>
    exact set_string_to_clob_unchecked_ok_isNull v v' s h
  case BLOB =>
    cases hp : parse_str_into_raw s <;>
      simp only [hp, bind_ok_law, bind_err_law, bind_ub_law] at h
    · exact set_raw_to_blob_unchecked_ok_isNull v v' _ h
    · cases h
    · cases h
  case Boolean =>
    exact absurd h (invalid_conversion_from_rust_type_ne_ok v "&str" v')
  case Object =>
    exact absurd h (invalid_conversion_from_rust_type_ne_ok v "&str" v')

theorem set_bytes_ok_isNull (v v' : SqlValue) (b : List Nat)
    (h : v.set_bytes b = .ok v') : v'.is_null = .ok false := by
  unfold SqlValue.set_bytes at h
  cases hv : v.native_type <;> simp only [hv] at h <;>
    first
      | exact dpiSetSlotValue_isNull_false v v' _
          (by simpa [SqlValue.set_raw_unchecked, set_bytes_unchecked_eq] using h)
      | exact set_raw_to_blob_unchecked_ok_isNull v v' b h
      | exact absurd h (invalid_conversion_from_rust_type_ne_ok v "Vec<u8>" v')

theorem set_timestamp_ok_isNull (v v' : SqlValue) (t : Timestamp)
    (h : v.set_timestamp t = .ok v') : v'.is_null = .ok false := by
  unfold SqlValue.set_timestamp at h
  cases hv : v.native_type <;> simp only [hv] at h <;>
    first
      | exact dpiSetSlotValue_isNull_false v v' _
          (by simpa [SqlValue.set_timestamp_unchecked] using h)
      | exact absurd h (invalid_conversion_from_rust_type_ne_ok v "Timestamp" v')

theorem set_interval_ds_ok_isNull (v v' : SqlValue) (it : IntervalDS)
    (h : v.set_interval_ds it = .ok v') : v'.is_null = .ok false := by
  unfold SqlValue.set_interval_ds at h
  cases hv : v.native_type <;> simp only [hv] at h <;>
    first
      | exact dpiSetSlotValue_isNull_false v v' _
          (by simpa [SqlValue.set_interval_ds_unchecked] using h)
      | exact absurd h (invalid_conversion_from_rust_type_ne_ok v "IntervalDS" v')

theorem set_interval_ym_ok_isNull (v v' : SqlValue) (it : IntervalYM)
    (h : v.set_interval_ym it = .ok v') : v'.is_null = .ok false := by
  unfold SqlValue.set_interval_ym at h
  cases hv : v.native_type <;> simp only [hv] at h <;>
    first
      | exact dpiSetSlotValue_isNull_false v v' _
          (by simpa [SqlValue.set_interval_ym_unchecked] using h)
      | exact absurd h (invalid_conversion_from_rust_type_ne_ok v "IntervalYM" v')

theorem set_object_ok_isNull (v v' : SqlValue) (o : Object)
    (h : v.set_object o = .ok v') : v'.is_null = .ok false := by
  unfold SqlValue.set_object at h
  cases hv : v.native_type <;> simp only [hv] at h <;>
    first
      | exact dpiSetSlotValue_isNull_false v v' _
          (by simpa [set_object_unchecked_eq] using h)
      | exact absurd h (invalid_conversion_from_rust_type_ne_ok v "Object" v')

theorem set_collection_ok_isNull (v v' : SqlValue) (c : Collection)
    (h : v.set_collection c = .ok v') : v'.is_null = .ok false := by
  unfold SqlValue.set_collection at h
  cases hv : v.native_type <;> simp only [hv] at h <;>
    first
      | exact dpiSetSlotValue_isNull_false v v' _
          (by simpa [set_object_unchecked_eq] using h)
      | exact absurd h (invalid_conversion_from_rust_type_ne_ok v "Collection" v')

theorem set_bool_ok_isNull (v v' : SqlValue) (b : Bool)
    (h : v.set_bool b = .ok v') : v'.is_null = .ok false := by
  unfold SqlValue.set_bool at h
  cases hv : v.native_type <;> simp only [hv] at h <;>
    first
      | exact dpiSetSlotValue_isNull_false v v' _
          (by simpa [SqlValue.set_bool_unchecked] using h)
      | exact absurd h (invalid_conversion_from_rust_type_ne_ok v "bool" v')

/-- C9: `is_null` is true immediately after a successful `set_null`, and
`set_null` changes only the null flag (payload and all other cell fields
unchanged); `is_null` is false immediately after any successful typed
setter (every setter clears the null flag as a side effect). -/
theorem c9_null_flag_behavior (v v' : SqlValue) :
    (v.set_null = .ok v' →
       v'.is_null = .ok true ∧
       (∀ d, v.dataSlot = .ok d → v'.dataSlot = .ok ⟨true, d.value⟩) ∧
       v'.handle = v.handle ∧ v'.native_type = v.native_type ∧
       v'.oratype = v.oratype ∧ v'.array_size = v.array_size) ∧
    (∀ x name, v.set_int_generic x name = .ok v' → v'.is_null = .ok false) ∧
    (∀ q name, v.set_flt_generic q name = .ok v' → v'.is_null = .ok false) ∧
    (∀ s, v.set_string s = .ok v' → v'.is_null = .ok false) ∧
    (∀ b, v.set_bytes b = .ok v' → v'.is_null = .ok false) ∧
    (∀ t, v.set_timestamp t = .ok v' → v'.is_null = .ok false) ∧
    (∀ it, v.set_interval_ds it = .ok v' → v'.is_null = .ok false) ∧
    (∀ it, v.set_interval_ym it = .ok v' → v'.is_null = .ok false) ∧
    (∀ o, v.set_object o = .ok v' → v'.is_null = .ok false) ∧
    (∀ c, v.set_collection c = .ok v' → v'.is_null = .ok false) ∧
    (∀ b, v.set_bool b = .ok v' → v'.is_null = .ok false) := by
  refine ⟨?_,
    fun x name h => set_int_generic_ok_isNull v v' x name h,
    fun q name h => set_flt_generic_ok_isNull v v' q name h,
    fun s h => set_string_ok_isNull v v' s h,
    fun b h => set_bytes_ok_isNull v v' b h,
    fun t h => set_timestamp_ok_isNull v v' t h,
    fun it h => set_interval_ds_ok_isNull v v' it h,
    fun it h => set_interval_ym_ok_isNull v v' it h,
    fun o h => set_object_ok_isNull v v' o h,
    fun c h => set_collection_ok_isNull v v' c h,
    fun b h => set_bool_ok_isNull v v' b h⟩
  intro h
  unfold SqlValue.set_null at h
  cases hd : v.dataSlot with
  | ok d =>
    simp only [hd, bind_ok_law] at h
    have hs := setDataSlot_ok_fields v v' ⟨true, d.value⟩ h
    refine ⟨?_, ?_, hs.1, hs.2.1, hs.2.2.1, hs.2.2.2.1⟩
    · unfold SqlValue.is_null
      show RResult.bindR v'.dataSlot _ = _
      rw [hs.2.2.2.2.2]
      rfl
    · intro d0 hd0
      cases hd0
      exact hs.2.2.2.2.2
  | err e =>
    simp only [hd, bind_err_law] at h
    cases h
  | ub =>
    simp only [hd, bind_ub_law] at h
    cases h

/-- C9 witness: after `set_null` on a non-null `Int64` cell the value is
null with the payload intact, and after `set_i64` (through the generic
integer setter) on that cell the value is not null. -/
theorem c9_null_flag_behavior_witness :
    exampleIntCellSetNull.is_null = .ok true ∧
    exampleIntCellSetNull.dataSlot = .ok ⟨true, .vInt64 5⟩ ∧
    (exampleIntCell 7).is_null = .ok false := by
  have h1 := (c9_null_flag_behavior (exampleIntCell 5) exampleIntCellSetNull).1
    (by decide)
  have h2 := ((c9_null_flag_behavior exampleIntCellSetNull
    (exampleIntCell 7)).2.1) 7 "i64" (by decide)
  exact ⟨h1.1, h1.2.1 ⟨false, .vInt64 5⟩ (by decide), h2⟩

/-! ## C1 -/

theorem handle_is_reusable_iff (v : SqlValue) (ot : OracleType) (asz : Nat) :
    v.handle_is_reusable ot asz = true ↔ ReusableSpec v ot asz := by
  unfold SqlValue.handle_is_reusable ReusableSpec
  cases hh : v.handle with
  | none => simp
  | some h =>
    cases ho : v.oratype with
    | none =>
      by_cases ha : v.array_size = asz <;> simp [ha]
    | some cur =>
      rcases hp : cur.var_create_param with ⟨n1, nt1, sz1, b1⟩
      rcases hq : ot.var_create_param with ⟨n2, nt2, sz2, b2⟩
      simp only [hp, hq, Option.some.injEq, ne_eq, exists_eq_left',
        reduceCtorEq, not_false_eq_true, true_and]
      split_ifs with h1 h2 h3 h4 <;>
        simp_all [charRawFamily, DPI_ORACLE_TYPE_VARCHAR,
          DPI_ORACLE_TYPE_NVARCHAR, DPI_ORACLE_TYPE_CHAR,
          DPI_ORACLE_TYPE_NCHAR, DPI_ORACLE_TYPE_RAW,
          DPI_ORACLE_TYPE_OBJECT]
      all_goals omega

/-- C1: `init_handle` returns false and performs no reallocation (cell
and allocator state unchanged) exactly when a buffer handle is present,
the cell's array size equals the requested one, the current Logical
Type's catalog entry has the same driver type code as the requested
type, and additionally for the character/raw family the existing buffer
size is at least the requested one, or for the object family the native
encodings are equal; in every other case the old buffer (if any) is
released, a fresh one is allocated, and the cell's Native Encoding,
Logical Type and array size are updated to the requested ones. -/
theorem c1_init_handle_reuse (v : SqlValue) (ot : OracleType) (asz : Nat)
    (st : AllocState) :
    (v.init_handle ot asz st = (false, v, st) ↔ ReusableSpec v ot asz) ∧
    (¬ ReusableSpec v ot asz →
       v.init_handle ot asz st =
         (true,
          { v with
              handle := some st.next
              data := some (List.replicate asz
                ⟨true, DpiValue.defaultFor (ot.var_create_param).2.1⟩)
              native_type := (ot.var_create_param).2.1
              oratype := some ot
              array_size := asz },
          { next := st.next + 1
            released := st.released ++
              (match v.handle with | some h => [h] | none => []) })) := by
  constructor
  · constructor
    · intro h
      by_cases hr : v.handle_is_reusable ot asz = true
      · exact (handle_is_reusable_iff v ot asz).1 hr
      · exfalso
        unfold SqlValue.init_handle at h
        rw [if_neg hr] at h
        rcases hq : ot.var_create_param with ⟨n2, nt2, sz2, b2⟩
        rw [hq] at h
        cases v.handle <;> simp [dpiVar_release, dpiConn_newVar] at h
    · intro hspec
      have hr : v.handle_is_reusable ot asz = true :=
        (handle_is_reusable_iff v ot asz).2 hspec
      unfold SqlValue.init_handle
      rw [if_pos hr]
  · intro hspec
    have hr : v.handle_is_reusable ot asz ≠ true :=
      fun hr => hspec ((handle_is_reusable_iff v ot asz).1 hr)
    unfold SqlValue.init_handle
    rw [if_neg hr]
    rcases hq : ot.var_create_param with ⟨n2, nt2, sz2, b2⟩
    cases v.handle <;>
      simp [dpiVar_release, dpiConn_newVar, hq]

/-- C1 witness: a fresh cell (no handle) is never reusable, so
`init_handle` allocates and sets encoding, Logical Type and array
size. -/
theorem c1_init_handle_reuse_witness :
    SqlValue.new.init_handle (.Varchar2 10) 1 exampleAlloc =
      (true,
       { SqlValue.new with
           handle := some 1
           data := some (List.replicate 1 ⟨true, .vBytes []⟩)
           native_type := .Char
           oratype := some (.Varchar2 10)
           array_size := 1 },
       { next := 2, released := [] }) := by
  have h := (c1_init_handle_reuse SqlValue.new (.Varchar2 10) 1 exampleAlloc).2
    (by simp [ReusableSpec, SqlValue.new])
  simpa [SqlValue.new, exampleAlloc] using h

/-! ## C5 -/

/-- C5: a NUMBER result column with scale exactly 0 and precision
strictly between 0 and the int64 precision threshold is defined with the
64-bit integer encoding instead of numeric-text, and such a column cell
is read back as an exact integer; scale-0 columns at or above the
threshold, and columns with non-zero scale, keep the catalog's
numeric-text mapping. -/
theorem c5_number_int64_override (prec : Nat) (scale : Int) (st : AllocState) :
    (scale = 0 → 0 < prec → prec < DPI_MAX_INT64_PRECISION →
       column_define_oratype (.Number prec scale) = .Int64 ∧
       (setup_column_value (.Number prec scale) st).1.native_type = .Int64 ∧
       (setup_column_value (.Number prec scale) st).1.oratype = some .Int64 ∧
       (setup_column_value (.Number prec scale) st).1.array_size =
         DPI_DEFAULT_FETCH_ARRAY_SIZE) ∧
    (scale = 0 → prec = 0 ∨ DPI_MAX_INT64_PRECISION ≤ prec →
       column_define_oratype (.Number prec scale) = .Number prec scale ∧
       (setup_column_value (.Number prec scale) st).1.native_type = .Number) ∧
    (scale ≠ 0 →
       column_define_oratype (.Number prec scale) = .Number prec scale ∧
       (setup_column_value (.Number prec scale) st).1.native_type = .Number) ∧
    (∀ k : Int, (exampleIntCell k).as_i64 = .ok k) := by
  refine ⟨?_, ?_, ?_, ?_⟩
  · intro hs h0 ht
    subst hs
    have hdef : column_define_oratype (.Number prec 0) = .Int64 := by
      show (if (0 : Int) = 0 ∧ 0 < prec ∧ prec < DPI_MAX_INT64_PRECISION
            then OracleType.Int64 else OracleType.Number prec 0) = OracleType.Int64
      rw [if_pos ⟨rfl, h0, ht⟩]
    refine ⟨hdef, ?_⟩
    unfold setup_column_value
    rw [hdef]
    exact ⟨rfl, rfl, rfl⟩
  · intro hs hge
    subst hs
    have hdef : column_define_oratype (.Number prec 0) = .Number prec 0 := by
      show (if (0 : Int) = 0 ∧ 0 < prec ∧ prec < DPI_MAX_INT64_PRECISION
            then OracleType.Int64 else OracleType.Number prec 0) =
           OracleType.Number prec 0
      rw [if_neg (by unfold DPI_MAX_INT64_PRECISION at hge ⊢; omega)]
    refine ⟨hdef, ?_⟩
    unfold setup_column_value
    rw [hdef]
    rfl
  · intro hs
    have hdef : column_define_oratype (.Number prec scale) = .Number prec scale := by
      show (if scale = 0 ∧ 0 < prec ∧ prec < DPI_MAX_INT64_PRECISION
            then OracleType.Int64 else OracleType.Number prec scale) =
           OracleType.Number prec scale
      rw [if_neg (by tauto)]
    refine ⟨hdef, ?_⟩
    unfold setup_column_value
    rw [hdef]
    rfl
  · intro k
    rfl

/-- C5 witness: `NUMBER(4,0)` is defined as a 64-bit integer column and
reads back 123 exactly; `NUMBER(18,0)` and `NUMBER(7,2)` keep the
numeric-text encoding. -/
theorem c5_number_int64_override_witness :
    (setup_column_value (.Number 4 0) exampleAlloc).1.native_type = .Int64 ∧
    (exampleIntCell 123).as_i64 = .ok 123 ∧
    (setup_column_value (.Number 18 0) exampleAlloc).1.native_type = .Number ∧
    (setup_column_value (.Number 7 2) exampleAlloc).1.native_type = .Number := by
  refine ⟨?_, ?_, ?_, ?_⟩
  · exact ((c5_number_int64_override 4 0 exampleAlloc).1 rfl (by decide)
      (by decide)).2.1
  · exact (c5_number_int64_override 4 0 exampleAlloc).2.2.2 123
  · exact ((c5_number_int64_override 18 0 exampleAlloc).2.1 rfl
      (Or.inr (by decide))).2
  · exact ((c5_number_int64_override 7 2 exampleAlloc).2.2.1 (by decide)).2

/-! ## C6 -/

theorem is_null_of_slot (v : SqlValue) (b : Bool) (val : DpiValue)
    (h : v.dataSlot = .ok ⟨b, val⟩) : v.is_null = .ok b := by
  unfold SqlValue.is_null
  show RResult.bindR v.dataSlot _ = _
  rw [h]
  rfl

theorem check_not_null_of_slot_false (v : SqlValue) (val : DpiValue)
    (h : v.dataSlot = .ok ⟨false, val⟩) : v.check_not_null = .ok () := by
  unfold SqlValue.check_not_null
  show RResult.bindR v.is_null _ = _
  rw [is_null_of_slot v false val h]
  rfl

theorem get_i64_of_slot (v : SqlValue) (x : Int)
    (h : v.dataSlot = .ok ⟨false, .vInt64 x⟩) : v.get_i64_unchecked = .ok x := by
  unfold SqlValue.get_i64_unchecked
  show RResult.bindR v.check_not_null _ = _
  rw [check_not_null_of_slot_false v _ h]
  show RResult.bindR v.dataSlot _ = _
  rw [h]
  rfl

theorem get_u64_of_slot (v : SqlValue) (n : Nat)
    (h : v.dataSlot = .ok ⟨false, .vUInt64 n⟩) : v.get_u64_unchecked = .ok n := by
  unfold SqlValue.get_u64_unchecked
  show RResult.bindR v.check_not_null _ = _
  rw [check_not_null_of_slot_false v _ h]
  show RResult.bindR v.dataSlot _ = _
  rw [h]
  rfl

theorem get_f32_of_slot (v : SqlValue) (q : ℚ)
    (h : v.dataSlot = .ok ⟨false, .vFloat q⟩) : v.get_f32_unchecked = .ok q := by
  unfold SqlValue.get_f32_unchecked
  show RResult.bindR v.check_not_null _ = _
  rw [check_not_null_of_slot_false v _ h]
  show RResult.bindR v.dataSlot _ = _
  rw [h]
  rfl

theorem get_f64_of_slot (v : SqlValue) (q : ℚ)
    (h : v.dataSlot = .ok ⟨false, .vDouble q⟩) : v.get_f64_unchecked = .ok q := by
  unfold SqlValue.get_f64_unchecked
  show RResult.bindR v.check_not_null _ = _
  rw [check_not_null_of_slot_false v _ h]
  show RResult.bindR v.dataSlot _ = _
  rw [h]
  rfl

/-- C6 counterexample: on a `Float`-encoded cell holding the exactly
representable `f32` value `2^31 = 2147483648` — strictly above
`i32::max_value()` — `as_i32` succeeds with the truncated value
`2147483647` instead of failing with `Overflow`: the bounds check of
`flt_to_int!` compares against `i32::max_value() as f32`, which rounds
up to `2^31`. -/
theorem c6_narrowing_counterexample :
    exampleFloatCell.as_i32 = .ok 2147483647 ∧
    (2147483647 : Int) < 2147483648 := by
  constructor
  · decide
  · decide

/-- C6 (amended): for `Int64`/`UInt64`-encoded non-null cells every
narrowing getter fails with `Overflow` (naming the source value and the
destination type) exactly when the source value is strictly outside the
destination's `[min, max]`, and boundary values succeed unchanged; for
`Float`/`Double`-encoded cells the range check compares against the
destination bounds cast into the source float type (rounded to the
nearest representable value), so a value within those rounded bounds —
even if strictly above the destination maximum, as in the
counterexample — succeeds with the saturating truncation instead of
failing with `Overflow`, while values outside the rounded bounds fail
with `Overflow`. -/
theorem c6_narrowing_characterization (v : SqlValue) (d : DestInt) :
    (∀ x : Int, v.native_type = .Int64 → v.dataSlot = .ok ⟨false, .vInt64 x⟩ →
       ((x < d.lo ∨ d.hi < x) →
          v.as_int_generic d = .err (.Overflow (toString x) d.name)) ∧
       (d.lo ≤ x → x ≤ d.hi → v.as_int_generic d = .ok x)) ∧
    (∀ n : Nat, v.native_type = .UInt64 → v.dataSlot = .ok ⟨false, .vUInt64 n⟩ →
       ((Int.ofNat n < d.lo ∨ d.hi < Int.ofNat n) →
          v.as_int_generic d = .err (.Overflow (toString (Int.ofNat n)) d.name)) ∧
       (d.lo ≤ Int.ofNat n → Int.ofNat n ≤ d.hi →
          v.as_int_generic d = .ok (Int.ofNat n))) ∧
    (∀ q : ℚ, v.native_type = .Float → v.dataSlot = .ok ⟨false, .vFloat q⟩ →
       ((q < d.loF32 ∨ d.hiF32 < q) →
          v.as_int_generic d = .err (.Overflow (ratToStr q) d.name)) ∧
       (d.loF32 ≤ q → q ≤ d.hiF32 →
          v.as_int_generic d = .ok (ratTruncSat q d.lo d.hi))) ∧
    (∀ q : ℚ, v.native_type = .Double → v.dataSlot = .ok ⟨false, .vDouble q⟩ →
       ((q < d.loF64 ∨ d.hiF64 < q) →
          v.as_int_generic d = .err (.Overflow (ratToStr q) d.name)) ∧
       (d.loF64 ≤ q → q ≤ d.hiF64 →
          v.as_int_generic d = .ok (ratTruncSat q d.lo d.hi))) ∧
    (∀ x : Int, v.native_type = .Int64 → v.dataSlot = .ok ⟨false, .vInt64 x⟩ →
       v.as_i64 = .ok x ∧
       (x < 0 → v.as_u64 = .err (.Overflow (toString x) "u64")) ∧
       (0 ≤ x → x ≤ Int.ofNat U64_MAX → v.as_u64 = .ok x)) ∧
    (∀ n : Nat, v.native_type = .UInt64 → v.dataSlot = .ok ⟨false, .vUInt64 n⟩ →
       v.as_u64 = .ok (Int.ofNat n) ∧
       (I64_MAX < Int.ofNat n →
          v.as_i64 = .err (.Overflow (toString (Int.ofNat n)) "i64")) ∧
       (Int.ofNat n ≤ I64_MAX → v.as_i64 = .ok (Int.ofNat n))) := by
  refine ⟨?_, ?_, ?_, ?_, ?_, ?_⟩
  · intro x hnt hslot
    have hg : v.as_int_generic d = int_try_into x d := by
      unfold SqlValue.as_int_generic
      rw [hnt]
      show RResult.bindR v.get_i64_unchecked _ = _
      rw [get_i64_of_slot v x hslot]
      rfl
    constructor
    · intro hout
      rw [hg]
      unfold int_try_into
      rw [if_neg (by rintro ⟨h1, h2⟩; rcases hout with h | h <;> omega)]
    · intro h1 h2
      rw [hg]
      unfold int_try_into
      rw [if_pos ⟨h1, h2⟩]
  · intro n hnt hslot
    have hg : v.as_int_generic d = int_try_into (Int.ofNat n) d := by
      unfold SqlValue.as_int_generic
      rw [hnt]
      show RResult.bindR v.get_u64_unchecked _ = _
      rw [get_u64_of_slot v n hslot]
      rfl
    constructor
    · intro hout
      rw [hg]
      unfold int_try_into
      rw [if_neg (by rintro ⟨h1, h2⟩; rcases hout with h | h <;> omega)]
    · intro h1 h2
      rw [hg]
      unfold int_try_into
      rw [if_pos ⟨h1, h2⟩]
  · intro q hnt hslot
    have hg : v.as_int_generic d = flt_to_int q d.loF32 d.hiF32 d := by
      unfold SqlValue.as_int_generic
      rw [hnt]
      show RResult.bindR v.get_f32_unchecked _ = _
      rw [get_f32_of_slot v q hslot]
      rfl
    constructor
    · intro hout
      rw [hg]
      unfold flt_to_int
      rw [if_neg (by rintro ⟨h1, h2⟩; rcases hout with h | h <;> linarith)]
    · intro h1 h2
      rw [hg]
      unfold flt_to_int
      rw [if_pos ⟨h1, h2⟩]
  · intro q hnt hslot
    have hg : v.as_int_generic d = flt_to_int q d.loF64 d.hiF64 d := by
      unfold SqlValue.as_int_generic
      rw [hnt]
      show RResult.bindR v.get_f64_unchecked _ = _
      rw [get_f64_of_slot v q hslot]
      rfl
    constructor
    · intro hout
      rw [hg]
      unfold flt_to_int
      rw [if_neg (by rintro ⟨h1, h2⟩; rcases hout with h | h <;> linarith)]
    · intro h1 h2
      rw [hg]
      unfold flt_to_int
      rw [if_pos ⟨h1, h2⟩]
  · intro x hnt hslot
    have h1 : v.as_i64 = .ok x := by
      unfold SqlValue.as_i64
      rw [hnt]
      exact get_i64_of_slot v x hslot
    have hg : v.as_u64 = int_try_into x destU64 := by
      unfold SqlValue.as_u64
      rw [hnt]
      show RResult.bindR v.get_i64_unchecked _ = _
      rw [get_i64_of_slot v x hslot]
      rfl
    refine ⟨h1, ?_, ?_⟩
    · intro hneg
      rw [hg]
      unfold int_try_into
      rw [if_neg (by rintro ⟨hl, -⟩; simp [destU64] at hl; omega)]
      rfl
    · intro hl hh
      rw [hg]
      unfold int_try_into
      rw [if_pos ⟨by simpa [destU64] using hl, by simpa [destU64, U64_MAX] using hh⟩]
  · intro n hnt hslot
    have h1 : v.as_u64 = .ok (Int.ofNat n) := by
      unfold SqlValue.as_u64
      rw [hnt]
      show RResult.bindR v.get_u64_unchecked _ = _
      rw [get_u64_of_slot v n hslot]
      rfl
    have hg : v.as_i64 = int_try_into (Int.ofNat n) destI64 := by
      unfold SqlValue.as_i64
      rw [hnt]
      show RResult.bindR v.get_u64_unchecked _ = _
      rw [get_u64_of_slot v n hslot]
      rfl
    refine ⟨h1, ?_, ?_⟩
    · intro hbig
      rw [hg]
      unfold int_try_into
      rw [if_neg (by
        rintro ⟨-, hh⟩
        simp [destI64, Int.ofNat_eq_natCast] at hh
        unfold I64_MAX at hbig
        simp [Int.ofNat_eq_natCast] at hbig
        omega)]
      rfl
    · intro hle
      rw [hg]
      unfold int_try_into
      rw [if_pos ⟨by simp [destI64, Int.ofNat_eq_natCast]; omega, by
        unfold I64_MAX at hle
        simpa [destI64] using hle⟩]

/-- C6 witness: exact boundary behavior on `Int64`-encoded cells —
`as_i8` succeeds at 127 and overflows at 128 — and the rounded float
bound at work: `as_i32` on the float cell holding `2^31` succeeds with
the saturated value. -/
theorem c6_narrowing_characterization_witness :
    (exampleIntCell 127).as_i8 = .ok 127 ∧
    (exampleIntCell 128).as_i8 = .err (.Overflow "128" "i8") ∧
    (exampleIntCell (-128)).as_i8 = .ok (-128) ∧
    exampleFloatCell.as_i32 = .ok (ratTruncSat 2147483648 destI32.lo destI32.hi) := by
  refine ⟨?_, ?_, ?_, ?_⟩
  · exact ((c6_narrowing_characterization (exampleIntCell 127) destI8).1
      127 rfl (by decide)).2 (by decide) (by decide)
  · exact ((c6_narrowing_characterization (exampleIntCell 128) destI8).1
      128 rfl (by decide)).1 (by decide)
  · exact ((c6_narrowing_characterization (exampleIntCell (-128)) destI8).1
      (-128) rfl (by decide)).2 (by decide) (by decide)
  · exact ((c6_narrowing_characterization exampleFloatCell destI32).2.2.1
      2147483648 rfl (by decide)).2 (by norm_num [destI32]) (by norm_num [destI32])

/-! ## C7 -/

theorem lobReadLoop_eq_drop (content : List Char) :
    ∀ fuel offset, content.length + 1 - offset ≤ fuel → 1 ≤ offset →
      lobReadLoop content offset = content.drop (offset - 1) := by
  intro fuel
  induction fuel with
  | zero =>
    intro off hf h1
    unfold lobReadLoop
    rw [if_neg (by omega)]
    symm
    apply List.drop_eq_nil_of_le
    omega
  | succ n ih =>
    intro off hf h1
    unfold lobReadLoop
    by_cases hle : off ≤ content.length
    · rw [if_pos hle]
      rw [ih (off + READ_CHAR_SIZE) (by unfold READ_CHAR_SIZE; omega)
        (by omega)]
      have hdd : content.drop (off + READ_CHAR_SIZE - 1) =
          (content.drop (off - 1)).drop READ_CHAR_SIZE := by
        rw [List.drop_drop]
        congr 1
        omega
      rw [hdd, List.take_append_drop]
    · rw [if_neg hle]
      symm
      apply List.drop_eq_nil_of_le
      omega

theorem setDataSlot_ok_of_slot (v : SqlValue) (d0 d : DpiData)
    (h : v.dataSlot = .ok d0) : ∃ v', v.setDataSlot d = .ok v' := by
  unfold SqlValue.dataSlot at h
  unfold SqlValue.setDataSlot
  cases hv : v.data with
  | none => rw [hv] at h; cases h
  | some arr =>
    simp only [hv] at h ⊢
    have hlt : v.buffer_row_index < arr.length := by
      by_contra hge
      rw [List.getElem?_eq_none (by omega)] at h
      simp at h
    rw [if_pos hlt]
    exact ⟨_, rfl⟩

/-- C7: writing a string into a character-large-object cell (truncate to
zero, single full write, clear the null flag) and reading the cell back
as a string returns exactly the written string — for every payload,
including ones longer than the 8192-character chunk of the read loop,
since the loop advances a 1-based offset in chunk-sized windows until
the offset exceeds the total size. -/
theorem c7_clob_roundtrip (v : SqlValue) (s : String) (b : Bool)
    (old : List Char) (hnt : v.native_type = .CLOB)
    (hslot : v.dataSlot = .ok ⟨b, .vClob old⟩) :
    (do
      let v' ← v.set_string s
      v'.as_string) = .ok s := by
  have hset : v.set_string s = v.setDataSlot ⟨false, .vClob s.data⟩ := by
    unfold SqlValue.set_string
    rw [hnt]
    unfold SqlValue.set_string_to_clob_unchecked
    show RResult.bindR v.dataSlot _ = _
    rw [hslot]
    rfl
  obtain ⟨v', hv'⟩ :=
    setDataSlot_ok_of_slot v ⟨b, .vClob old⟩ ⟨false, .vClob s.data⟩ hslot
  have hf := setDataSlot_ok_fields v v' _ hv'
  show RResult.bindR (v.set_string s) (fun w => w.as_string) = .ok s
  rw [hset, hv']
  show v'.as_string = .ok s
  unfold SqlValue.as_string
  rw [hf.2.1, hnt]
  show v'.get_clob_as_string_unchecked = .ok s
  unfold SqlValue.get_clob_as_string_unchecked
  show RResult.bindR v'.check_not_null _ = _
  rw [check_not_null_of_slot_false v' _ hf.2.2.2.2.2]
  show RResult.bindR v'.dataSlot _ = _
  rw [hf.2.2.2.2.2]
  show RResult.ok (String.mk (lobReadLoop s.data 1)) = RResult.ok s
  rw [lobReadLoop_eq_drop s.data (s.data.length + 1) 1 (by omega) (by omega)]
  rfl

/-- C7 witness: the round trip at a concrete CLOB cell with a payload of
20000 characters — more than twice the 8192-character chunk size. -/
theorem c7_clob_roundtrip_witness :
    (do
      let v' ← exampleClobCell.set_string exampleLongPayload
      v'.as_string) = .ok exampleLongPayload :=
  c7_clob_roundtrip exampleClobCell exampleLongPayload true [] rfl rfl

end RustOracle
